import Mathlib

/-
  Verification development for the minipl-go compiler/interpreter pipeline.

  The Go sources are embedded shallowly:
  * pure functions become Lean functions,
  * the visitor-pattern traversals become recursive functions over the AST
    (the spec, section 9, states that a direct recursive evaluator returning
    results from each sub-call is equivalent to the explicit evaluation stack,
    and that only evaluation order and the type-pairing rules must be kept),
  * Go panics and os.Exit are explicit outcomes of an Except monad,
  * Go maps are association lists (lookup and update semantics only),
  * machine ints are Lean Int (Go division is Int.tdiv, truncation toward zero),
  * traversals recurse on an explicit fuel argument so that all definitions
    are executable by kernel reduction; fuel exhaustion is a distinguished
    outcome that no theorem identifies with program behaviour.
-/

deriving instance DecidableEq for Except

namespace MiniPL

/-! ## Tokens (pkg/token; the Go TokenTag is a string type) -/

inductive TokenTag where
  | INTEGER | STRING | BOOLEAN
  | INTEGER_LITERAL | STRING_LITERAL | BOOLEAN_LITERAL
  | IDENT
  | PLUS | MINUS | MULTIPLY | INTEGER_DIV | LT | EQ | AND | NOT | ASSIGN
  | LPAREN | RPAREN | SEMI | COLON
  | FOR | IN | DO | END | RANGE
  | ASSERT | VAR | READ | PRINT
  | EOF | ERROR
  | ZERO
deriving DecidableEq

/- `ZERO` stands for the zero value "" of the Go string type TokenTag, which
   a zero-valued ast node produced by parser error recovery carries.
   The lexer file names the range token DOTDOT and the parser names it RANGE;
   the pkg/token source resolving both is not under src, so a single
   constructor RANGE stands for the `..` token. -/

structure Token where
  tag : TokenTag
  lexeme : String
deriving DecidableEq

structure Position where
  line : Nat
  column : Nat
deriving DecidableEq

/-- Modelled from the spec: pkg token.Position's String method is not under
    src; the accumulated error messages in the symboltable tests show the
    "line:column" rendering. -/
def Position.str (p : Position) : String :=
  toString p.line ++ ":" ++ toString p.column

/-- Go strconv.Atoi (stdlib): an optional sign followed by a nonempty digit
    run; anything else is an error (None). Overflow is not modelled. -/
def digitsToNat : List Char → Option Nat
  | [] => none
  | l => l.foldl (fun acc c => match acc with
      | none => none
      | some n => if c.isDigit then some (n * 10 + (c.toNat - 48)) else none)
    (some 0)

def goAtoi (s : String) : Option Int :=
  match s.toList with
  | [] => none
  | '+' :: rest => (digitsToNat rest).map (fun n => Int.ofNat n)
  | '-' :: rest => (digitsToNat rest).map (fun n => -(Int.ofNat n))
  | l => (digitsToNat l).map (fun n => Int.ofNat n)

/-- Token.Value: returns the lexeme, panics (None) if it is empty. -/
def Token.value (t : Token) : Option String :=
  if t.lexeme = "" then none else some t.lexeme

/-- Token.ValueInt: Atoi of the lexeme; panics (None) on empty lexeme or
    parse error. -/
def Token.valueInt (t : Token) : Option Int :=
  if t.lexeme = "" then none else goAtoi t.lexeme

/-- Modelled from the spec: pkg token.Token.IsStatement is not under src; per
    the spec grammar a statement begins with var, an identifier, for, read,
    print or assert. -/
def Token.isStatement (t : Token) : Bool :=
  match t.tag with
  | .VAR | .IDENT | .FOR | .READ | .PRINT | .ASSERT => true
  | _ => false

/-- Modelled from the spec: pkg token.Token.IsType is not under src; the
    value types are INT, STRING and BOOL. -/
def Token.isType (t : Token) : Bool :=
  match t.tag with
  | .INTEGER | .STRING | .BOOLEAN => true
  | _ => false

/-- Modelled from the spec: pkg token.Token.IsOperator is not under src; the
    spec lists 7 binary operators `+ - * / < = &`. -/
def Token.isOperator (t : Token) : Bool :=
  match t.tag with
  | .PLUS | .MINUS | .MULTIPLY | .INTEGER_DIV | .LT | .EQ | .AND => true
  | _ => false

/-- Rendering of a TokenTag by Go's %v (the tags are string constants).
    The pkg/token constant spellings for the tags present in src are those of
    unnamed/part_004; RANGE's spelling is modelled from the spec. -/
def TokenTag.str : TokenTag → String
  | .INTEGER => "INTEGER"
  | .STRING => "STRING"
  | .BOOLEAN => "BOOLEAN"
  | .INTEGER_LITERAL => "INTEGER_LITERAL"
  | .STRING_LITERAL => "STRING_LITERAL"
  | .BOOLEAN_LITERAL => "BOOLEAN_LITERAL"
  | .IDENT => "IDENT"
  | .PLUS => "PLUS"
  | .MINUS => "MINUS"
  | .MULTIPLY => "MULTIPLY"
  | .INTEGER_DIV => "INTEGER_DIV"
  | .LT => "LT"
  | .EQ => "EQ"
  | .AND => "AND"
  | .NOT => "NOT"
  | .ASSIGN => "ASSIGN"
  | .LPAREN => "LPAREN"
  | .RPAREN => "RPAREN"
  | .SEMI => "SEMI"
  | .COLON => "COLON"
  | .FOR => "FOR"
  | .IN => "IN"
  | .DO => "DO"
  | .END => "END"
  | .RANGE => "RANGE"
  | .ASSERT => "ASSERT"
  | .VAR => "VAR"
  | .READ => "READ"
  | .PRINT => "PRINT"
  | .EOF => "EOF"
  | .ERROR => "ERROR"
  | .ZERO => ""

/-! ## Association lists standing for Go maps -/

def getAssoc {α : Type} : List (String × α) → String → Option α
  | [], _ => none
  | (k, v) :: rest, key => if k = key then some v else getAssoc rest key

def setAssoc {α : Type} : List (String × α) → String → α → List (String × α)
  | [], key, v => [(key, v)]
  | (k, w) :: rest, key, v =>
      if k = key then (key, v) :: rest else (k, w) :: setAssoc rest key v

def delAssoc {α : Type} : List (String × α) → String → List (String × α)
  | [], _ => []
  | (k, w) :: rest, key =>
      if k = key then rest else (k, w) :: delAssoc rest key

/-! ## Symbol table (pkg/symboltable) -/

inductive SymbolType where
  | INTEGER | STRING | BOOLEAN
deriving DecidableEq

/-- SymbolType.String (from the symboltable sources). -/
def SymbolType.str : SymbolType → String
  | .INTEGER => "int"
  | .STRING => "string"
  | .BOOLEAN => "bool"

/-- symboltable.SymbolTable: a map from declared name to its Symbol (the pkg
    Symbol carries just the SymbolType). -/
structure SymbolTable where
  symbols : List (String × SymbolType)
deriving DecidableEq

def SymbolTable.get (s : SymbolTable) (name : String) : Option SymbolType :=
  getAssoc s.symbols name

def SymbolTable.insert (s : SymbolTable) (name : String) (t : SymbolType) : SymbolTable :=
  ⟨setAssoc s.symbols name t⟩

/-! ## AST (pkg/ast)

    Fields of Go interface type that the parser's error recovery can leave
    nil are Option; a nil statement produced by parseStatement's default
    branch is a none entry of the statement list. -/

structure IdentNode where
  id : Token
  pos : Position

inductive Expr where
  | binary (left : Expr) (operator : Token) (right : Expr)
  | unary (unaryOp : Token) (operand : Expr) (pos : Position)
  | nullary (operand : Expr)
  | numberOpnd (value : Int) (pos : Position)
  | stringOpnd (value : String) (pos : Position)
  | identExpr (id : Token) (pos : Position)

/-- Node.Position for expression nodes (BinaryExpr reports its left child's
    position, NullaryExpr its operand's). -/
def Expr.position : Expr → Position
  | .binary l _ _ => l.position
  | .unary _ _ p => p
  | .nullary o => o.position
  | .numberOpnd _ p => p
  | .stringOpnd _ p => p
  | .identExpr _ p => p

inductive Stmt where
  | declStmt (identifier : Token) (variableType : Token)
      (expression : Option Expr) (pos : Position)
  | assignStmt (identifier : IdentNode) (expression : Option Expr) (pos : Position)
  | forStmt (index : IdentNode) (low : Option Expr) (high : Option Expr)
      (statements : List (Option Stmt)) (pos : Position)
  | readStmt (targetIdentifier : IdentNode) (pos : Position)
  | printStmt (expression : Option Expr) (pos : Position)
  | assertStmt (expression : Option Expr) (pos : Position)

def Stmt.position : Stmt → Position
  | .declStmt _ _ _ p => p
  | .assignStmt _ _ p => p
  | .forStmt _ _ _ _ p => p
  | .readStmt _ p => p
  | .printStmt _ p => p
  | .assertStmt _ p => p

structure Prog where
  statements : List (Option Stmt)

/-! ## ScopeAnalyzer (pkg/symboltable SymbolTableCreator)

    Traversals return Except String: the .error side is a Go panic (calling
    a method on a nil ast node, or Token.Value on an empty lexeme), which
    aborts the whole analysis.  Statement traversal recurses on fuel. -/

structure CreatorState where
  symbols : SymbolTable
  lockedSymbols : List String
  errors : List String
deriving DecidableEq

def emptyLexemeMsg : String := "Attempting to take value of an empty lexeme"

def nilNodeMsg : String := "nil ast node"

def fuelMsg : String := "fuel exhausted"

/-- Token.Value in the Except monad (Go panics on an empty lexeme). -/
def tokenValueE (t : Token) : Except String String :=
  match t.value with
  | some s => .ok s
  | none => .error emptyLexemeMsg

def msgRedecl (pos : Position) (name : String) : String :=
  pos.str ++ ": redeclaration of variable " ++ name

def msgLocked (pos : Position) (name : String) : String :=
  pos.str ++ ": cannot modify loop index " ++ name ++ " during loop"

def msgUndeclared (pos : Position) (name : String) : String :=
  pos.str ++ ": variable " ++ name ++ " used before declaration"

/-- VisitIdent: report the name if it is absent from the symbol table. -/
def stcVisitIdentAt (id : Token) (pos : Position) (st : CreatorState) :
    Except String CreatorState := do
  let name ← tokenValueE id
  match st.symbols.get name with
  | some _ => .ok st
  | none => .ok { st with errors := st.errors ++ [msgUndeclared pos name] }

def stcVisitIdent (n : IdentNode) (st : CreatorState) : Except String CreatorState :=
  stcVisitIdentAt n.id n.pos st

/-- Expression traversal of the SymbolTableCreator (VisitBinaryExpr,
    VisitUnaryExpr, VisitNullaryExpr, the operand visits and VisitIdent). -/
def stcVisitExpr : Expr → CreatorState → Except String CreatorState
  | .binary l _ r, st => do
      let st1 ← stcVisitExpr l st
      stcVisitExpr r st1
  | .unary _ o _, st => stcVisitExpr o st
  | .nullary o, st => stcVisitExpr o st
  | .numberOpnd _ _, st => .ok st
  | .stringOpnd _ _, st => .ok st
  | .identExpr id pos, st => stcVisitIdentAt id pos st

def stcVisitOptExpr (o : Option Expr) (st : CreatorState) : Except String CreatorState :=
  match o with
  | none => .error nilNodeMsg
  | some e => stcVisitExpr e st

/-- Go inserts into the map `lockedSymbols` (a set). -/
def lockInsert (l : List String) (name : String) : List String :=
  if l.contains name then l else name :: l

/-- Go `delete(stc.lockedSymbols, name)` removes the name from the set. -/
def lockDelete (l : List String) (name : String) : List String :=
  l.filter (fun m => m ≠ name)

mutual

/-- Statement dispatch of the SymbolTableCreator.  VisitDeclStmt and
    VisitAssignStmt mirror the source exactly: neither visits the
    statement's expression. -/
def stcVisitStmt (s : Stmt) (st : CreatorState) :
    Except String CreatorState :=
  match s with
  | .declStmt id vt _ pos => do
      let name ← tokenValueE id
      match st.symbols.get name with
      | some _ =>
          .ok { st with errors := st.errors ++ [msgRedecl pos name] }
      | none =>
          match vt.tag with
          | .INTEGER => .ok { st with symbols := st.symbols.insert name .INTEGER }
          | .STRING => .ok { st with symbols := st.symbols.insert name .STRING }
          | .BOOLEAN => .ok { st with symbols := st.symbols.insert name .BOOLEAN }
          | _ => .ok st
  | .assignStmt ident _ pos => do
      let st1 ← stcVisitIdent ident st
      let name ← tokenValueE ident.id
      if st1.lockedSymbols.contains name then
        .ok { st1 with errors := st1.errors ++ [msgLocked pos name] }
      else
        .ok st1
  | .forStmt index low high body _ => do
      let st1 ← stcVisitIdent index st
      let idxName ← tokenValueE index.id
      let st2 := { st1 with lockedSymbols := lockInsert st1.lockedSymbols idxName }
      let st3 ← stcVisitOptExpr low st2
      let st4 ← stcVisitOptExpr high st3
      let st5 ← stcVisitStmts body st4
      .ok { st5 with lockedSymbols := lockDelete st5.lockedSymbols idxName }
  | .readStmt target _ => stcVisitIdent target st
  | .printStmt e _ => stcVisitOptExpr e st
  | .assertStmt e _ => stcVisitOptExpr e st

def stcVisitOptStmt (o : Option Stmt) (st : CreatorState) :
    Except String CreatorState :=
  match o with
  | none => .error nilNodeMsg
  | some s => stcVisitStmt s st

def stcVisitStmts (l : List (Option Stmt)) (st : CreatorState) :
    Except String CreatorState :=
  match l with
  | [] => .ok st
  | o :: rest => do
      let st1 ← stcVisitOptStmt o st
      stcVisitStmts rest st1

end

/-- SymbolTableCreator.Create: fresh state, traverse, return table and
    accumulated errors. -/
def stcCreate (p : Prog) : Except String (SymbolTable × List String) := do
  let st ← stcVisitStmts p.statements ⟨⟨[]⟩, [], []⟩
  .ok (st.symbols, st.errors)

/-! ## TypeChecker (unnamed/part_003, the error-accumulating version)

    Following spec section 9, the explicit type stack is replaced by a
    recursive checker returning the inferred type of each node together with
    the errors its subtree appended, in traversal order. -/

def msgUnmatched (pos : Position) (l r : SymbolType) (op : TokenTag) : String :=
  pos.str ++ ": unmatched types " ++ l.str ++ " and " ++ r.str ++
    " for binary expression " ++ op.str

def msgOpNotDef (pos : Position) (op : TokenTag) (t : SymbolType) : String :=
  pos.str ++ ": operator " ++ op.str ++ " not defined for type " ++ t.str

def msgUnaryNotDef (pos : Position) (op : TokenTag) (t : SymbolType) : String :=
  pos.str ++ ": unary operator " ++ op.str ++ " not defined for type " ++ t.str

def msgCannotAssign (pos : Position) (rhs : SymbolType) (name : String)
    (vt : SymbolType) : String :=
  pos.str ++ ": cannot assign type " ++ rhs.str ++ " to variable " ++ name ++
    " of type " ++ vt.str

def msgForIndex (pos : Position) (t : SymbolType) : String :=
  pos.str ++ ": loop index must be " ++ SymbolType.str .INTEGER ++ ", not " ++ t.str

def msgForLow (pos : Position) (t : SymbolType) : String :=
  pos.str ++ ": for loop range lower bound must be " ++ SymbolType.str .INTEGER ++
    ", not " ++ t.str

def msgForHigh (pos : Position) (t : SymbolType) : String :=
  pos.str ++ ": for loop range upper bound must be " ++ SymbolType.str .INTEGER ++
    ", not " ++ t.str

def msgAssertType (pos : Position) (t : SymbolType) : String :=
  pos.str ++ ": assert statement is only defined for type " ++
    SymbolType.str .BOOLEAN ++ ", not " ++ t.str

def tcMissingSymbolMsg : String :=
  "Type checker came across a symbol not in the symbol table"

/-- TypeChecker expression traversal.  The .error side is a Go panic: an
    identifier missing from the table, a nil node, or (for a binary operator
    outside the source's switch) the stack imbalance the Go code would turn
    into a failed type assertion at the next pop. -/
def tcVisitExpr (symbols : SymbolTable) : Expr → Except String (SymbolType × List String)
  | .numberOpnd _ _ => .ok (.INTEGER, [])
  | .stringOpnd _ _ => .ok (.STRING, [])
  | .identExpr id _ => do
      let name ← tokenValueE id
      match symbols.get name with
      | some t => .ok (t, [])
      | none => .error tcMissingSymbolMsg
  | .nullary o => tcVisitExpr symbols o
  | .unary u o pos => do
      let (t, errs) ← tcVisitExpr symbols o
      if u.tag = .NOT ∧ t ≠ .BOOLEAN then
        .ok (t, errs ++ [msgUnaryNotDef pos TokenTag.NOT t])
      else
        .ok (t, errs)
  | .binary l op r => do
      let (tl, el) ← tcVisitExpr symbols l
      let (tr, er) ← tcVisitExpr symbols r
      let pos := (Expr.binary l op r).position
      let mismatch := if tl ≠ tr then [msgUnmatched pos tl tr op.tag] else []
      match op.tag with
      | .PLUS =>
          let opErr := if tl ≠ SymbolType.INTEGER ∧ tl ≠ SymbolType.STRING then
            [msgOpNotDef pos TokenTag.PLUS tl] else []
          .ok (tl, el ++ er ++ mismatch ++ opErr)
      | .MINUS =>
          let opErr := if tl ≠ SymbolType.INTEGER then
            [msgOpNotDef pos TokenTag.MINUS tl] else []
          .ok (tl, el ++ er ++ mismatch ++ opErr)
      | .MULTIPLY =>
          let opErr := if tl ≠ SymbolType.INTEGER then
            [msgOpNotDef pos TokenTag.MULTIPLY tl] else []
          .ok (tl, el ++ er ++ mismatch ++ opErr)
      | .INTEGER_DIV =>
          let opErr := if tl ≠ SymbolType.INTEGER then
            [msgOpNotDef pos TokenTag.INTEGER_DIV tl] else []
          .ok (tl, el ++ er ++ mismatch ++ opErr)
      | .AND =>
          let opErr := if tl ≠ SymbolType.BOOLEAN then
            [msgOpNotDef pos TokenTag.AND tl] else []
          .ok (tl, el ++ er ++ mismatch ++ opErr)
      | .LT => .ok (.BOOLEAN, el ++ er ++ mismatch)
      | .EQ => .ok (.BOOLEAN, el ++ er ++ mismatch)
      | _ => .error "binary operator outside the operator switch"

def tcVisitOptExpr (symbols : SymbolTable) (o : Option Expr) :
    Except String (SymbolType × List String) :=
  match o with
  | none => .error nilNodeMsg
  | some e => tcVisitExpr symbols e

/-- The Go switch assigning variableType in the type checker's VisitDeclStmt
    leaves the zero value (INTEGER, iota 0) for a non-type token. -/
def declaredSymbolType (vt : Token) : SymbolType :=
  match vt.tag with
  | .INTEGER => .INTEGER
  | .STRING => .STRING
  | .BOOLEAN => .BOOLEAN
  | _ => .INTEGER

/-- TypeChecker statement dispatch.  No statement case recurses into other
    statements (the source's VisitForStmt skips the loop body), so the
    traversal is structural. -/
def tcVisitStmt (symbols : SymbolTable) (s : Stmt)
    (errs : List String) : Except String (List String) :=
  match s with
    | .declStmt id vt oe pos =>
        match oe with
        | none => .ok errs
        | some e => do
            let variableType := declaredSymbolType vt
            let (rhsType, el) ← tcVisitExpr symbols e
            if variableType ≠ rhsType then do
              let name ← tokenValueE id
              .ok (errs ++ el ++ [msgCannotAssign pos rhsType name variableType])
            else
              .ok (errs ++ el)
    | .assignStmt ident oe pos => do
        let (idType, ei) ← tcVisitExpr symbols (.identExpr ident.id ident.pos)
        let (exprType, el) ← tcVisitOptExpr symbols oe
        if exprType ≠ idType then do
          let name ← tokenValueE ident.id
          .ok (errs ++ ei ++ el ++ [msgCannotAssign pos exprType name idType])
        else
          .ok (errs ++ ei ++ el)
    | .forStmt index low high _ pos => do
        -- The source's VisitForStmt checks index, low and high but does not
        -- traverse the loop body.
        let (indexType, ei) ← tcVisitExpr symbols (.identExpr index.id index.pos)
        let (lowType, elo) ← tcVisitOptExpr symbols low
        let (highType, ehi) ← tcVisitOptExpr symbols high
        let e1 := if indexType ≠ SymbolType.INTEGER then [msgForIndex pos indexType] else []
        let e2 := if lowType ≠ SymbolType.INTEGER then [msgForLow pos lowType] else []
        let e3 := if highType ≠ SymbolType.INTEGER then [msgForHigh pos highType] else []
        .ok (errs ++ ei ++ elo ++ ehi ++ e1 ++ e2 ++ e3)
    | .readStmt _ _ => .ok errs
    | .printStmt oe _ => do
        let (_, el) ← tcVisitOptExpr symbols oe
        .ok (errs ++ el)
    | .assertStmt oe pos => do
        let (exprType, el) ← tcVisitOptExpr symbols oe
        if exprType ≠ SymbolType.BOOLEAN then
          .ok (errs ++ el ++ [msgAssertType pos exprType])
        else
          .ok (errs ++ el)

def tcVisitOptStmt (symbols : SymbolTable) (o : Option Stmt)
    (errs : List String) : Except String (List String) :=
  match o with
  | none => .error nilNodeMsg
  | some s => tcVisitStmt symbols s errs

def tcVisitStmts (symbols : SymbolTable) (l : List (Option Stmt))
    (errs : List String) : Except String (List String) :=
  match l with
  | [] => .ok errs
  | o :: rest => do
      let errs1 ← tcVisitOptStmt symbols o errs
      tcVisitStmts symbols rest errs1

/-- TypeChecker.CheckTypes over a whole program. -/
def tcCheckTypes (symbols : SymbolTable) (p : Prog) :
    Except String (List String) :=
  tcVisitStmts symbols p.statements []

/-! ## Interpreter (pkg/interpreter)

    State: the name-to-value environment (map entries can hold a Go nil
    interface, hence Option Value), the remaining stdin lines and the bytes
    written to the output sink.  Halting outcomes: exitFailure is the
    source's terminate (message printed to the output sink, os.Exit(1));
    goPanic is a Go runtime or explicit panic, whose message does not reach
    the output sink. -/

inductive Value where
  | int (n : Int)
  | str (s : String)
  | bool (b : Bool)
deriving DecidableEq

/-- A line of the input stream; `terminated` records whether the stream has
    a newline after it (bufio.ReadString reports an error iff the delimiter
    was not found). -/
structure InputLine where
  text : String
  terminated : Bool
deriving DecidableEq

structure InterpState where
  vars : List (String × Option Value)  -- the Go field is named variables
  input : List InputLine
  output : String
deriving DecidableEq

inductive Halt where
  | exitFailure (msg : String) (st : InterpState)
  | goPanic (msg : String) (st : InterpState)
deriving DecidableEq

/-- Go fmt's %v rendering of the runtime values (and of a nil interface). -/
def goFmtValue : Option Value → String
  | none => "<nil>"
  | some (.int n) => toString n
  | some (.str s) => s
  | some (.bool b) => if b then "true" else "false"

/-- Go interface equality on the runtime values: equal dynamic type and
    equal value; nil equals only nil. -/
def goEq (a b : Option Value) : Bool := a == b

def unsupportedOperandsMsg (l r : Option Value) (op : TokenTag) : String :=
  "Unsupported operands " ++ goFmtValue l ++ " and " ++ goFmtValue r ++
    " for operator " ++ op.str

def unsupportedOperatorMsg (op : TokenTag) : String :=
  "Encountered an unsupported operator " ++ op.str

/-- The Go runtime's panic message for an integer division by zero. -/
def divideByZeroMsg : String := "runtime error: integer divide by zero"

def typeAssertIntMsg : String := "interface conversion: interface is not int"

def typeAssertBoolMsg : String := "interface conversion: interface is not bool"

/-- Expression evaluation (VisitBinaryExpr, VisitUnaryExpr, VisitNullaryExpr,
    the operand visits and VisitIdent), following spec section 9's recursive
    reading of the evaluation stack: left operand first, then right. -/
def evalExpr (st : InterpState) : Expr → Except Halt (Option Value)
  | .numberOpnd v _ => .ok (some (.int v))
  | .stringOpnd s _ => .ok (some (.str s))
  | .identExpr id _ =>
      match id.value with
      | none => .error (.goPanic emptyLexemeMsg st)
      | some name =>
          match getAssoc st.vars name with
          | none => .ok none
          | some v => .ok v
  | .nullary o => evalExpr st o
  | .unary u o _ => do
      let v ← evalExpr st o
      match u.tag with
      | .NOT =>
          match v with
          | some (.bool b) => .ok (some (.bool (!b)))
          | _ => .error (.goPanic typeAssertBoolMsg st)
      | tag => .error (.goPanic ("Unsupported unary type " ++ tag.str) st)
  | .binary l op r => do
      let lv ← evalExpr st l
      let rv ← evalExpr st r
      match op.tag with
      | .PLUS =>
          match lv, rv with
          | some (.int a), some (.int b) => .ok (some (.int (a + b)))
          | some (.str a), some (.str b) => .ok (some (.str (a ++ b)))
          | _, _ => .error (.goPanic (unsupportedOperandsMsg lv rv .PLUS) st)
      | .MINUS =>
          match lv, rv with
          | some (.int a), some (.int b) => .ok (some (.int (a - b)))
          | _, _ => .error (.goPanic (unsupportedOperandsMsg lv rv .MINUS) st)
      | .INTEGER_DIV =>
          match lv, rv with
          | some (.int a), some (.int b) =>
              if b = 0 then .error (.goPanic divideByZeroMsg st)
              else .ok (some (.int (Int.tdiv a b)))
          | _, _ => .error (.goPanic (unsupportedOperandsMsg lv rv .INTEGER_DIV) st)
      | .MULTIPLY =>
          match lv, rv with
          | some (.int a), some (.int b) => .ok (some (.int (a * b)))
          | _, _ => .error (.goPanic (unsupportedOperandsMsg lv rv .MULTIPLY) st)
      | .AND =>
          match lv, rv with
          | some (.bool a), some (.bool b) => .ok (some (.bool (a && b)))
          | _, _ => .error (.goPanic (unsupportedOperandsMsg lv rv .AND) st)
      | .LT =>
          match lv, rv with
          | some (.int a), some (.int b) => .ok (some (.bool (decide (a < b))))
          | _, _ => .error (.goPanic (unsupportedOperandsMsg lv rv .LT) st)
      | .EQ => .ok (some (.bool (goEq lv rv)))
      | tag => .error (.goPanic (unsupportedOperatorMsg tag) st)

def evalOptExpr (st : InterpState) (o : Option Expr) : Except Halt (Option Value) :=
  match o with
  | none => .error (.goPanic nilNodeMsg st)
  | some e => evalExpr st e

/-- The source's terminate: print the message (Fprintln adds a newline) to
    the output sink, then os.Exit(1). -/
def terminate (msg : String) (st : InterpState) : Except Halt InterpState :=
  .error (.exitFailure msg { st with output := st.output ++ msg ++ "\n" })

/-- bufio.Reader.ReadString of a newline delimiter over the modelled stream:
    returns the data read (with its newline when present), whether an error
    occurred (delimiter not found), and the remaining stream. -/
def readLineGo (st : InterpState) : String × Bool × InterpState :=
  match st.input with
  | [] => ("", true, st)
  | ⟨s, true⟩ :: rest => (s ++ "\n", false, { st with input := rest })
  | ⟨s, false⟩ :: rest => (s, true, { st with input := rest })

/-- strings.Trim(s, "\n"): drop all leading and trailing newline runes. -/
def trimNewlines (s : String) : String :=
  String.mk (((s.toList.dropWhile (fun c => c = '\n')).reverse.dropWhile
    (fun c => c = '\n')).reverse)

/-- The index values a Go loop `for j := low; j < high; j++` visits:
    low inclusive up to high exclusive. -/
def rangeInts (low high : Int) : List Int :=
  (List.range (high - low).toNat).map (fun k => low + Int.ofNat k)

/-- The `.(int)` type assertion of VisitForStmt. -/
def goAssertInt (v : Option Value) (st : InterpState) : Except Halt Int :=
  match v with
  | some (.int n) => .ok n
  | _ => .error (.goPanic typeAssertIntMsg st)

def msgParseIntFail (pos : Position) : String :=
  pos.str ++ ": runtime error: failed to parse integer"

def msgParseStringFail (pos : Position) : String :=
  pos.str ++ ": runtime error: failed to parse string"

def msgCouldNotRead (pos : Position) : String :=
  pos.str ++ ": runtime error: could not read user input"

def msgAssertFailed (pos : Position) : String :=
  pos.str ++ ": runtime error: assert failed"

mutual

/-- Interpreter statement dispatch, mirroring the Visit methods. -/
def execStmt (s : Stmt) (st : InterpState) : Except Halt InterpState :=
  match s with
  | .declStmt id vt oe _ =>
      match id.value with
      | none => .error (.goPanic emptyLexemeMsg st)
      | some varName =>
          match oe with
          | some e => do
              let v ← evalExpr st e
              .ok { st with vars := setAssoc st.vars varName v }
          | none =>
              let v : Value :=
                match vt.tag with
                | .INTEGER => .int 0
                | .STRING => .str ""
                | _ => .bool false
              .ok { st with vars := setAssoc st.vars varName (some v) }
  | .assignStmt ident oe _ =>
      match ident.id.value with
      | none => .error (.goPanic emptyLexemeMsg st)
      | some varName => do
          let v ← evalOptExpr st oe
          .ok { st with vars := setAssoc st.vars varName v }
  | .forStmt index low high body _ =>
      match index.id.value with
      | none => .error (.goPanic emptyLexemeMsg st)
      | some idx => do
          let lv ← evalOptExpr st low
          let lo ← goAssertInt lv st
          let hv ← evalOptExpr st high
          let hi ← goAssertInt hv st
          execForIter body idx (rangeInts lo hi) st
  | .readStmt target pos =>
      match target.id.value with
      | none => .error (.goPanic emptyLexemeMsg st)
      | some varName =>
          let x := match getAssoc st.vars varName with
            | none => none
            | some v => v
          match x with
          | some (.int _) =>
              -- the source discards ReadString's error here (str, _ := ...)
              let (data, _, st1) := readLineGo st
              match goAtoi (trimNewlines data) with
              | none => terminate (msgParseIntFail pos) st1
              | some v =>
                  .ok { st1 with vars := setAssoc st1.vars varName (some (.int v)) }
          | some (.str _) =>
              let (data, isErr, st1) := readLineGo st
              if isErr then terminate (msgParseStringFail pos) st1
              else
                .ok { st1 with vars := setAssoc st1.vars varName (some (.str data)) }
          | _ => terminate (msgCouldNotRead pos) st
  | .printStmt oe _ => do
      let v ← evalOptExpr st oe
      .ok { st with output := st.output ++ goFmtValue v }
  | .assertStmt oe pos => do
      let v ← evalOptExpr st oe
      match v with
      | some (.bool b) =>
          if b then .ok st else terminate (msgAssertFailed pos) st
      | _ => .error (.goPanic typeAssertBoolMsg st)
termination_by (sizeOf s, 0, 0)

def execOptStmt (o : Option Stmt) (st : InterpState) :
    Except Halt InterpState :=
  match o with
  | none => .error (.goPanic nilNodeMsg st)
  | some s => execStmt s st
termination_by (sizeOf o, 0, 0)

def execStmts (l : List (Option Stmt)) (st : InterpState) :
    Except Halt InterpState :=
  match l with
  | [] => .ok st
  | o :: rest => do
      let st1 ← execOptStmt o st
      execStmts rest st1
termination_by (sizeOf l, 0, 0)

/-- The body of VisitForStmt's Go for-loop: bind the index, run the body,
    continue with the next index value. -/
def execForIter (body : List (Option Stmt)) (idx : String)
    (vals : List Int) (st : InterpState) : Except Halt InterpState :=
  match vals with
  | [] => .ok st
  | j :: rest => do
      let st1 ← execStmts body
        { st with vars := setAssoc st.vars idx (some (.int j)) }
      execForIter body idx rest st1
termination_by (sizeOf body, 1, vals.length)

end

/-- Interpreter.Run (VisitProg, VisitStmts). -/
def interpRun (p : Prog) (st : InterpState) : Except Halt InterpState :=
  execStmts p.statements st

/-! ## Lexer (pkg/lexer)

    State: the current character (none once the eof flag is set), the
    characters after it, and the running token position.  Scanning loops
    recurse on fuel; a none/fuelMsg result marks fuel exhaustion, which for
    two inputs (a block comment whose tail cannot advance) is a real
    divergence of the Go loop.  unicode.IsLetter/IsNumber are modelled on
    their ASCII fragment, which covers every character class the claims
    exercise. -/

structure LexState where
  current : Option Char
  rest : List Char
  tokenPos : Position
deriving DecidableEq

def lexNew (source : String) : LexState :=
  match source.toList with
  | [] => ⟨none, [], ⟨1, 1⟩⟩
  | c :: cs => ⟨some c, cs, ⟨1, 1⟩⟩

/-- Lexer.advance: consume one character, tracking line/column from the
    character being left behind; reaching the end sets the eof flag and
    leaves the position untouched. -/
def lexAdvance (st : LexState) : LexState :=
  match st.rest with
  | [] => { st with current := none }
  | c :: cs =>
      let p := match st.current with
        | some x =>
            if x = '\n' then ⟨st.tokenPos.line + 1, 1⟩
            else ⟨st.tokenPos.line, st.tokenPos.column + 1⟩
        | none => st.tokenPos
      ⟨some c, cs, p⟩

/-- unicode.IsSpace on the ASCII whitespace characters. -/
def goIsSpace (c : Char) : Bool :=
  c = ' ' || c = '\t' || c = '\n' || c = '\r' || c = '\x0b' || c = '\x0c'

def goIsLetter (c : Char) : Bool := c.isAlpha

def goIsDigit (c : Char) : Bool := c.isDigit

/-- The character class of Lexer.ident's loop:
    unicode.In(c, Number, Letter) or underscore. -/
def identChar (c : Char) : Bool := c.isAlpha || c.isDigit || c = '_'

/-- The reservedKeywords table (identical in both lexer files). -/
def reservedKeywords : List (String × Token) :=
  [("var", ⟨.VAR, ""⟩), ("for", ⟨.FOR, ""⟩), ("end", ⟨.END, ""⟩),
   ("in", ⟨.IN, ""⟩), ("do", ⟨.DO, ""⟩), ("read", ⟨.READ, ""⟩),
   ("print", ⟨.PRINT, ""⟩), ("int", ⟨.INTEGER, ""⟩),
   ("string", ⟨.STRING, ""⟩), ("bool", ⟨.BOOLEAN, ""⟩),
   ("assert", ⟨.ASSERT, ""⟩)]

def skipWhitespace (fuel : Nat) (st : LexState) : Option LexState :=
  match fuel with
  | 0 => none
  | n + 1 =>
    match st.current with
    | none => some st
    | some c =>
        if goIsSpace c then skipWhitespace n (lexAdvance st) else some st

def skipLineCommentLoop (fuel : Nat) (st : LexState) : Option LexState :=
  match fuel with
  | 0 => none
  | n + 1 =>
    match st.current with
    | none => some st
    | some c =>
        if c = '\n' then some st else skipLineCommentLoop n (lexAdvance st)

/-- pkg Lexer.skipLineComment: consume the two slashes, run to the line end,
    consume the newline. -/
def skipLineComment (fuel : Nat) (st : LexState) : Option LexState := do
  let st1 ← skipLineCommentLoop fuel (lexAdvance (lexAdvance st))
  some (lexAdvance st1)

def skipBlockCommentLoop (fuel : Nat) (pos : Position) (st : LexState) :
    Option (Option Token × Position × LexState) :=
  match fuel with
  | 0 => none
  | n + 1 =>
    match st.current with
    | none => some (some ⟨.ERROR, "Unterminated block comment"⟩, pos, st)
    | some c =>
        if c ≠ '*' then skipBlockCommentLoop n pos (lexAdvance st)
        else
          match st.rest.head? with
          | some next =>
              if next = '/' then some (none, pos, lexAdvance (lexAdvance st))
              else skipBlockCommentLoop n pos (lexAdvance st)
          | none =>
              -- a star with nothing after it: neither branch of the source
              -- advances, so the Go loop never terminates
              skipBlockCommentLoop n pos st

/-- pkg Lexer.skipBlockComment: none in the first component means the
    comment closed; an ERROR token means it was unterminated. -/
def skipBlockComment (fuel : Nat) (st : LexState) :
    Option (Option Token × Position × LexState) :=
  skipBlockCommentLoop fuel st.tokenPos (lexAdvance (lexAdvance st))

def lexIdentLoop (fuel : Nat) (st : LexState) (acc : String) :
    Option (String × LexState) :=
  match fuel with
  | 0 => none
  | n + 1 =>
    match st.current with
    | none => some (acc, st)
    | some c =>
        if identChar c then lexIdentLoop n (lexAdvance st) (acc.push c)
        else some (acc, st)

/-- pkg Lexer.ident. -/
def lexIdent (fuel : Nat) (st : LexState) : Option (Token × Position × LexState) := do
  let pos := st.tokenPos
  let (id, st1) ← lexIdentLoop fuel st ""
  match getAssoc reservedKeywords id with
  | some t => some (t, pos, st1)
  | none => some (⟨.IDENT, id⟩, pos, st1)

def lexNumberLoop (fuel : Nat) (st : LexState) (acc : String) :
    Option (String × LexState) :=
  match fuel with
  | 0 => none
  | n + 1 =>
    match st.current with
    | none => some (acc, st)
    | some c =>
        if goIsDigit c then lexNumberLoop n (lexAdvance st) (acc.push c)
        else some (acc, st)

/-- pkg Lexer.number: the digit run becomes an INTEGER_LITERAL; there is no
    check on a leading zero in this lexer. -/
def lexNumber (fuel : Nat) (st : LexState) : Option (Token × Position × LexState) := do
  let pos := st.tokenPos
  let (numString, st1) ← lexNumberLoop fuel st ""
  some (⟨.INTEGER_LITERAL, numString⟩, pos, st1)

def lexStringLoop (fuel : Nat) (pos : Position) (st : LexState) (acc : String) :
    Option (Token × Position × LexState) :=
  match fuel with
  | 0 => none
  | n + 1 =>
    match st.current with
    | none => some (⟨.ERROR, "unterminated string literal " ++ acc⟩, pos, st)
    | some c =>
        if c = '\\' then
          let st1 := lexAdvance st
          match st1.current with
          | some e =>
              let acc2 :=
                if e = 'n' then acc.push '\n'
                else if e = 't' then acc.push '\t'
                else if e = 'r' then acc.push '\r'
                else acc.push e
              lexStringLoop n pos (lexAdvance st1) acc2
          | none =>
              -- at eof Go's currentChar keeps the stale backslash, which the
              -- default branch appends before the loop exits unterminated
              lexStringLoop n pos st1 (acc.push '\\')
        else if c = '"' then some (⟨.STRING_LITERAL, acc⟩, pos, lexAdvance st)
        else if c = '\n' || c = '\r' then
          some (⟨.ERROR, "unterminated string literal " ++ acc⟩, pos, st)
        else lexStringLoop n pos (lexAdvance st) (acc.push c)

/-- pkg Lexer.string (the opening quote is consumed here). -/
def lexString (fuel : Nat) (st : LexState) : Option (Token × Position × LexState) :=
  lexStringLoop fuel st.tokenPos (lexAdvance st) ""

/-- The unrecognized-character error token: the source builds the message
    after calling advance, so it cites the character after the offending one
    (or, at eof, the stale current character). -/
def unrecognizedTok (stale : Char) (st1 : LexState) : Token :=
  let shown := match st1.current with
    | some c2 => c2
    | none => stale
  ⟨.ERROR, "unrecognized character '" ++ String.mk [shown] ++ "'"⟩

/-- pkg Lexer.GetNextToken: one token (with its position) and the state
    after it. -/
def getNextToken (fuel : Nat) (st : LexState) : Option (Token × Position × LexState) :=
  match fuel with
  | 0 => none
  | n + 1 =>
    match st.current with
    | none => some (⟨.EOF, ""⟩, st.tokenPos, st)
    | some c =>
        let pos := st.tokenPos
        if goIsSpace c then do
          let st1 ← skipWhitespace n st
          getNextToken n st1
        else if goIsLetter c then lexIdent n st
        else if goIsDigit c then lexNumber n st
        else if c = '/' then
          match st.rest.head? with
          | some next =>
              if next = '/' then do
                let st1 ← skipLineComment n st
                getNextToken n st1
              else if next = '*' then do
                let (tok, bpos, st1) ← skipBlockComment n st
                match tok with
                | some t => some (t, bpos, st1)
                | none => getNextToken n st1
              else some (⟨.INTEGER_DIV, ""⟩, pos, lexAdvance st)
          | none => some (⟨.INTEGER_DIV, ""⟩, pos, lexAdvance st)
        else if c = '"' then lexString n st
        else if c = ':' then
          match st.rest.head? with
          | some next =>
              if next = '=' then some (⟨.ASSIGN, ""⟩, pos, lexAdvance (lexAdvance st))
              else some (⟨.COLON, ""⟩, pos, lexAdvance st)
          | none => some (⟨.COLON, ""⟩, pos, lexAdvance st)
        else if c = '.' && st.rest.head? = some '.' then
          some (⟨.RANGE, ""⟩, pos, lexAdvance (lexAdvance st))
        else if c = ';' then some (⟨.SEMI, ""⟩, pos, lexAdvance st)
        else if c = '!' then some (⟨.NOT, ""⟩, pos, lexAdvance st)
        else if c = '+' then some (⟨.PLUS, ""⟩, pos, lexAdvance st)
        else if c = '-' then some (⟨.MINUS, ""⟩, pos, lexAdvance st)
        else if c = '*' then some (⟨.MULTIPLY, ""⟩, pos, lexAdvance st)
        else if c = '<' then some (⟨.LT, ""⟩, pos, lexAdvance st)
        else if c = '=' then some (⟨.EQ, ""⟩, pos, lexAdvance st)
        else if c = '&' then some (⟨.AND, ""⟩, pos, lexAdvance st)
        else if c = '(' then some (⟨.LPAREN, ""⟩, pos, lexAdvance st)
        else if c = ')' then some (⟨.RPAREN, ""⟩, pos, lexAdvance st)
        else
          -- a dot not starting `..` also falls through to this branch
          some (unrecognizedTok c (lexAdvance st), pos, lexAdvance st)

/-- Run the pkg lexer to completion: the token/position pairs before EOF and
    the position the lexer reports for EOF. -/
def runLexer (fuel : Nat) (st : LexState) :
    Option (List (Token × Position) × Position) :=
  match fuel with
  | 0 => none
  | n + 1 => do
    let (tok, pos, st1) ← getNextToken n st
    if tok.tag = .EOF then some ([], pos)
    else do
      let (toks, epos) ← runLexer n st1
      some ((tok, pos) :: toks, epos)

/-! ## Legacy lexer (src/lexer)

    The older lexer tracks positions the same way (currentLine/currentCol)
    but reports failures by panicking instead of returning ERROR tokens; the
    .error side of Except is the panic message.  Its advance is identical to
    the pkg one, so lexAdvance and the shared scanning loops are reused. -/

def legSkipLineCommentLoop (fuel : Nat) (st : LexState) : Option LexState :=
  match fuel with
  | 0 => none
  | n + 1 =>
    match st.current with
    | none => some st
    | some c =>
        if c = '\n' then some st else legSkipLineCommentLoop n (lexAdvance st)

/-- legacy Lexer.skipLineComment (the two slashes were consumed by the
    caller): run to the line end, consume the newline. -/
def legSkipLineComment (fuel : Nat) (st : LexState) : Option LexState := do
  let st1 ← legSkipLineCommentLoop fuel st
  some (lexAdvance st1)

/-- legacy Lexer.skipBlockComment: unterminated comments end silently at
    eof; a star not followed by a slash is never advanced past, so the Go
    loop diverges there (fuel exhaustion). -/
def legSkipBlockComment (fuel : Nat) (st : LexState) : Option LexState :=
  match fuel with
  | 0 => none
  | n + 1 =>
    match st.current with
    | none => some st
    | some c =>
        if c ≠ '*' then legSkipBlockComment n (lexAdvance st)
        else
          match st.rest.head? with
          | some next =>
              if next = '/' then some (lexAdvance (lexAdvance st))
              else legSkipBlockComment n st
          | none => legSkipBlockComment n st

/-- legacy Lexer.string (the opening quote was consumed by the caller): a
    newline or carriage return panics; reaching eof returns the literal read
    so far without complaint. -/
def legStringLoop (fuel : Nat) (st : LexState) (acc : String) :
    Except String (Token × LexState) :=
  match fuel with
  | 0 => .error fuelMsg
  | n + 1 =>
    match st.current with
    | none => .ok (⟨.STRING_LITERAL, acc⟩, st)
    | some c =>
        if c = '\\' then
          let st1 := lexAdvance st
          match st1.current with
          | some e =>
              let acc2 :=
                if e = 'n' then acc.push '\n'
                else if e = 't' then acc.push '\t'
                else if e = 'r' then acc.push '\r'
                else acc.push e
              legStringLoop n (lexAdvance st1) acc2
          | none => legStringLoop n st1 (acc.push '\\')
        else if c = '"' then .ok (⟨.STRING_LITERAL, acc⟩, lexAdvance st)
        else if c = '\n' || c = '\r' then .error "Unterminated string literal"
        else legStringLoop n (lexAdvance st) (acc.push c)

/-- legacy Lexer.GetNextToken.  The leading-zero check happens here, before
    number() is called, and panics. -/
def legGetNextToken (fuel : Nat) (st : LexState) :
    Except String (Token × Position × LexState) :=
  match fuel with
  | 0 => .error fuelMsg
  | n + 1 =>
    match st.current with
    | none => .ok (⟨.EOF, ""⟩, st.tokenPos, st)
    | some c =>
        let pos := st.tokenPos
        if goIsSpace c then
          match skipWhitespace n st with
          | none => .error fuelMsg
          | some st1 => legGetNextToken n st1
        else if goIsLetter c then
          match lexIdentLoop n st "" with
          | none => .error fuelMsg
          | some (id, st1) =>
              match getAssoc reservedKeywords id with
              | some t => .ok (t, pos, st1)
              | none => .ok (⟨.IDENT, id⟩, pos, st1)
        else if goIsDigit c then
          if c = '0' && (st.rest.head?.map goIsDigit).getD false then
            .error "Number beginning with 0"
          else
            match lexNumberLoop n st "" with
            | none => .error fuelMsg
            | some (numString, st1) => .ok (⟨.INTEGER_LITERAL, numString⟩, pos, st1)
        else if c = '/' then
          match st.rest.head? with
          | some next =>
              if next = '/' then
                match legSkipLineComment n (lexAdvance (lexAdvance st)) with
                | none => .error fuelMsg
                | some st1 => legGetNextToken n st1
              else if next = '*' then
                match legSkipBlockComment n (lexAdvance (lexAdvance st)) with
                | none => .error fuelMsg
                | some st1 => legGetNextToken n st1
              else .ok (⟨.INTEGER_DIV, ""⟩, pos, lexAdvance st)
          | none => .ok (⟨.INTEGER_DIV, ""⟩, pos, lexAdvance st)
        else if c = '"' then do
          let (tok, st1) ← legStringLoop n (lexAdvance st) ""
          .ok (tok, pos, st1)
        else if c = ':' then
          match st.rest.head? with
          | some next =>
              if next = '=' then .ok (⟨.ASSIGN, ""⟩, pos, lexAdvance (lexAdvance st))
              else .ok (⟨.COLON, ""⟩, pos, lexAdvance st)
          | none => .ok (⟨.COLON, ""⟩, pos, lexAdvance st)
        else if c = '.' && st.rest.head? = some '.' then
          .ok (⟨.RANGE, ""⟩, pos, lexAdvance (lexAdvance st))
        else if c = ';' then .ok (⟨.SEMI, ""⟩, pos, lexAdvance st)
        else if c = '!' then .ok (⟨.NOT, ""⟩, pos, lexAdvance st)
        else if c = '+' then .ok (⟨.PLUS, ""⟩, pos, lexAdvance st)
        else if c = '-' then .ok (⟨.MINUS, ""⟩, pos, lexAdvance st)
        else if c = '*' then .ok (⟨.MULTIPLY, ""⟩, pos, lexAdvance st)
        else if c = '<' then .ok (⟨.LT, ""⟩, pos, lexAdvance st)
        else if c = '=' then .ok (⟨.EQ, ""⟩, pos, lexAdvance st)
        else if c = '&' then .ok (⟨.AND, ""⟩, pos, lexAdvance st)
        else if c = '(' then .ok (⟨.LPAREN, ""⟩, pos, lexAdvance st)
        else if c = ')' then .ok (⟨.RPAREN, ""⟩, pos, lexAdvance st)
        else .error ("Could not tokenize character '" ++ String.mk [c] ++ "'")

/-! ## Parser (the pkg parser, second file of src/ast/ast.go)

    The lexer the parser pulls from is modelled as the list of its remaining
    (token, position) outputs; once the list is empty it keeps yielding EOF
    at eofPos, as the real lexer does.  Parsing functions recurse on fuel
    and return through Except String, whose .error side is a Go panic
    (Token.ValueInt or Token.Value inside parseOperand) or fuel exhaustion. -/

structure PState where
  tokens : List (Token × Position)
  eofPos : Position
  currentToken : Token
  currentPos : Position
  errors : List String
deriving DecidableEq

def pAdvance (st : PState) : PState :=
  match st.tokens with
  | [] => { st with currentToken := ⟨.EOF, ""⟩, currentPos := st.eofPos }
  | (t, p) :: rest => { st with tokens := rest, currentToken := t, currentPos := p }

/-- parser.New: prime currentToken with the first lexer output. -/
def parserNew (tokens : List (Token × Position)) (eofPos : Position) : PState :=
  match tokens with
  | [] => ⟨[], eofPos, ⟨.EOF, ""⟩, eofPos, []⟩
  | (t, p) :: rest => ⟨rest, eofPos, t, p, []⟩

def msgExpectedGot (pos : Position) (want got : TokenTag) : String :=
  pos.str ++ ": syntax error: expected " ++ want.str ++ " got " ++ got.str

def msgUnexpected (pos : Position) (got : TokenTag) : String :=
  pos.str ++ ": syntax error: unexpected " ++ got.str

def msgExpectedType (got : TokenTag) : String :=
  "Syntax error: expected a type, got " ++ got.str

def msgExpectedOperator (got : TokenTag) : String :=
  "Syntax error: expected an operator, got " ++ got.str

/-- Parser.eat: consume the current token if it has the wanted tag,
    otherwise record a syntax error and leave it. -/
def eat (tokenType : TokenTag) (st : PState) : Bool × PState :=
  if st.currentToken.tag = tokenType then (true, pAdvance st)
  else
    (false,
     { st with errors := st.errors ++ [msgExpectedGot st.currentPos tokenType st.currentToken.tag] })

/-- Parser.skipTo: discard tokens until EOF or until one of the given tags,
    which is consumed too. -/
def skipTo (fuel : Nat) (tags : List TokenTag) (st : PState) : Option PState :=
  match fuel with
  | 0 => none
  | n + 1 =>
    if st.currentToken.tag = .EOF then some st
    else if tags.contains st.currentToken.tag then some (pAdvance st)
    else skipTo n tags (pAdvance st)

def skipStatement (fuel : Nat) (st : PState) : Option PState :=
  skipTo fuel [.SEMI] st

/-- Parser.skipForBlock: discard tokens tracking nested for blocks until a
    matching `end for ;` (or EOF). -/
def skipForBlock (fuel : Nat) (st : PState) : Option PState :=
  match fuel with
  | 0 => none
  | n + 1 =>
    if st.currentToken.tag = .EOF then some st
    else if st.currentToken.tag = .FOR then do
      let st1 ← skipForBlock n (pAdvance st)
      skipForBlock n st1
    else if st.currentToken.tag = .END then
      let st1 := pAdvance st
      if st1.currentToken.tag = .FOR then
        let st2 := pAdvance st1
        if st2.currentToken.tag = .SEMI then some (pAdvance st2)
        else skipForBlock n st2
      else skipForBlock n st1
    else skipForBlock n (pAdvance st)

def liftSkip (r : Option PState) : Except String PState :=
  match r with
  | none => .error fuelMsg
  | some st => .ok st

/-- Token.ValueInt with the panic messages as Except errors. -/
def tokenValueIntE (t : Token) : Except String Int :=
  if t.lexeme = "" then .error emptyLexemeMsg
  else
    match goAtoi t.lexeme with
    | some n => .ok n
    | none => .error ("strconv.Atoi: parsing " ++ t.lexeme ++ ": invalid syntax")

def zeroPos : Position := ⟨0, 0⟩

def zeroToken : Token := ⟨.ZERO, ""⟩

def zeroIdent : IdentNode := ⟨zeroToken, zeroPos⟩

/-- The Go zero values the parse functions return after error recovery. -/
def zeroDecl : Stmt := .declStmt zeroToken zeroToken none zeroPos

def zeroAssign : Stmt := .assignStmt zeroIdent none zeroPos

def zeroFor : Stmt := .forStmt zeroIdent none none [] zeroPos

def zeroRead : Stmt := .readStmt zeroIdent zeroPos

def zeroPrint : Stmt := .printStmt none zeroPos

def zeroAssert : Stmt := .assertStmt none zeroPos

mutual

def parseOperand (fuel : Nat) (st : PState) : Except String (Option Expr × PState) :=
  match fuel with
  | 0 => .error fuelMsg
  | n + 1 =>
    let pos := st.currentPos
    match st.currentToken.tag with
    | .INTEGER_LITERAL => do
        let val ← tokenValueIntE st.currentToken
        let (ok, st1) := eat .INTEGER_LITERAL st
        if ok then .ok (some (.numberOpnd val pos), st1) else .ok (none, st1)
    | .STRING_LITERAL => do
        let val ← tokenValueE st.currentToken
        let (ok, st1) := eat .STRING_LITERAL st
        if ok then .ok (some (.stringOpnd val pos), st1) else .ok (none, st1)
    | .IDENT =>
        let t := st.currentToken
        let (ok, st1) := eat .IDENT st
        if ok then .ok (some (.identExpr t pos), st1) else .ok (none, st1)
    | .LPAREN => do
        let (ok, st1) := eat .LPAREN st
        if !ok then .ok (none, st1)
        else do
          let (expr, st2) ← parseExpression n st1
          match expr with
          | none => .ok (none, st2)
          | some e =>
              let (ok2, st3) := eat .RPAREN st2
              if ok2 then .ok (some e, st3) else .ok (none, st3)
    | got =>
        .ok (none, { st with errors := st.errors ++ [msgUnexpected pos got] })

def parseExpression (fuel : Nat) (st : PState) : Except String (Option Expr × PState) :=
  match fuel with
  | 0 => .error fuelMsg
  | n + 1 =>
    let pos := st.currentPos
    if st.currentToken.tag = .NOT then do
      let unary := st.currentToken
      let (_, st1) := eat .NOT st
      let (operand, st2) ← parseOperand n st1
      match operand with
      | none => .ok (none, st2)
      | some o => .ok (some (.unary unary o pos), st2)
    else do
      let (left, st1) ← parseOperand n st
      match left with
      | none => .ok (none, st1)
      | some l =>
          if !st1.currentToken.isOperator then
            .ok (some (.nullary l), st1)
          else
            let operand := st1.currentToken
            if !st1.currentToken.isOperator then
              -- dead in the source: the same test was just taken
              .ok (none,
                { st1 with errors := st1.errors ++ [msgExpectedOperator st1.currentToken.tag] })
            else do
              let (_, st2) := eat st1.currentToken.tag st1
              let (right, st3) ← parseOperand n st2
              match right with
              | none => .ok (none, st3)
              | some r => .ok (some (.binary l operand r), st3)

def parseDeclaration (fuel : Nat) (st : PState) : Except String (Stmt × PState) :=
  match fuel with
  | 0 => .error fuelMsg
  | n + 1 => do
    let pos := st.currentPos
    let (ok, st1) := eat .VAR st
    if !ok then do
      let st2 ← liftSkip (skipStatement n st1)
      .ok (zeroDecl, st2)
    else do
      let ident := st1.currentToken
      let (ok2, st2) := eat .IDENT st1
      if !ok2 then do
        let st3 ← liftSkip (skipStatement n st2)
        .ok (zeroDecl, st3)
      else do
        let (ok3, st3) := eat .COLON st2
        if !ok3 then do
          let st4 ← liftSkip (skipStatement n st3)
          .ok (zeroDecl, st4)
        else do
          let variableType := st3.currentToken
          if !st3.currentToken.isType then do
            let stE := { st3 with errors := st3.errors ++ [msgExpectedType st3.currentToken.tag] }
            let st4 ← liftSkip (skipStatement n stE)
            .ok (zeroDecl, st4)
          else do
            let (ok4, st4) := eat st3.currentToken.tag st3
            if !ok4 then do
              let st5 ← liftSkip (skipStatement n st4)
              .ok (zeroDecl, st5)
            else if st4.currentToken.tag ≠ .ASSIGN then do
              let (_, st5) := eat .SEMI st4
              .ok (.declStmt ident variableType none pos, st5)
            else do
              let (ok5, st5) := eat .ASSIGN st4
              if !ok5 then do
                let st6 ← liftSkip (skipStatement n st5)
                .ok (zeroDecl, st6)
              else do
                let (expr, st6) ← parseExpression n st5
                match expr with
                | none => do
                    let st7 ← liftSkip (skipStatement n st6)
                    .ok (zeroDecl, st7)
                | some e => do
                    let (_, st7) := eat .SEMI st6
                    .ok (.declStmt ident variableType (some e) pos, st7)

def parseAssignment (fuel : Nat) (st : PState) : Except String (Stmt × PState) :=
  match fuel with
  | 0 => .error fuelMsg
  | n + 1 => do
    let pos := st.currentPos
    let ident := st.currentToken
    let (ok, st1) := eat .IDENT st
    if !ok then do
      let st2 ← liftSkip (skipStatement n st1)
      .ok (zeroAssign, st2)
    else do
      let (ok2, st2) := eat .ASSIGN st1
      if !ok2 then do
        let st3 ← liftSkip (skipStatement n st2)
        .ok (zeroAssign, st3)
      else do
        let (expr, st3) ← parseExpression n st2
        match expr with
        | none => do
            let st4 ← liftSkip (skipStatement n st3)
            .ok (zeroAssign, st4)
        | some e => do
            let (_, st4) := eat .SEMI st3
            .ok (.assignStmt ⟨ident, pos⟩ (some e) pos, st4)

def parseForStatement (fuel : Nat) (st : PState) : Except String (Stmt × PState) :=
  match fuel with
  | 0 => .error fuelMsg
  | n + 1 => do
    let pos := st.currentPos
    let (ok, st1) := eat .FOR st
    if !ok then do
      let st2 ← liftSkip (skipForBlock n st1)
      .ok (zeroFor, st2)
    else do
      let ident := st1.currentToken
      let identPos := st1.currentPos
      let (ok2, st2) := eat .IDENT st1
      if !ok2 then do
        let st3 ← liftSkip (skipForBlock n st2)
        .ok (zeroFor, st3)
      else do
        let (ok3, st3) := eat .IN st2
        if !ok3 then do
          let st4 ← liftSkip (skipForBlock n st3)
          .ok (zeroFor, st4)
        else do
          let (low, st4) ← parseExpression n st3
          match low with
          | none => do
              let st5 ← liftSkip (skipForBlock n st4)
              .ok (zeroFor, st5)
          | some lowE => do
              let (ok4, st5) := eat .RANGE st4
              if !ok4 then do
                let st6 ← liftSkip (skipForBlock n st5)
                .ok (zeroFor, st6)
              else do
                let (high, st6) ← parseExpression n st5
                match high with
                | none => do
                    let st7 ← liftSkip (skipForBlock n st6)
                    .ok (zeroFor, st7)
                | some highE => do
                    let (ok5, st7) := eat .DO st6
                    if !ok5 then do
                      let st8 ← liftSkip (skipForBlock n st7)
                      .ok (zeroFor, st8)
                    else do
                      let (stmts, st8) ← parseStatements n st7
                      let (ok6, st9) := eat .END st8
                      if !ok6 then do
                        let st10 ← liftSkip (skipForBlock n st9)
                        .ok (zeroFor, st10)
                      else do
                        let (ok7, st10) := eat .FOR st9
                        if !ok7 then do
                          let st11 ← liftSkip (skipForBlock n st10)
                          .ok (zeroFor, st11)
                        else do
                          let (_, st11) := eat .SEMI st10
                          .ok (.forStmt ⟨ident, identPos⟩ (some lowE) (some highE) stmts pos, st11)

def parseReadStatement (fuel : Nat) (st : PState) : Except String (Stmt × PState) :=
  match fuel with
  | 0 => .error fuelMsg
  | n + 1 => do
    let pos := st.currentPos
    let (ok, st1) := eat .READ st
    if !ok then do
      let st2 ← liftSkip (skipStatement n st1)
      .ok (zeroRead, st2)
    else do
      let identPos := st1.currentPos
      let statement : Stmt := .readStmt ⟨st1.currentToken, identPos⟩ pos
      let (ok2, st2) := eat .IDENT st1
      if !ok2 then do
        let st3 ← liftSkip (skipStatement n st2)
        .ok (zeroRead, st3)
      else do
        let (_, st3) := eat .SEMI st2
        .ok (statement, st3)

def parsePrintStatement (fuel : Nat) (st : PState) : Except String (Stmt × PState) :=
  match fuel with
  | 0 => .error fuelMsg
  | n + 1 => do
    let pos := st.currentPos
    let (ok, st1) := eat .PRINT st
    if !ok then do
      let st2 ← liftSkip (skipStatement n st1)
      .ok (zeroPrint, st2)
    else do
      let (expr, st2) ← parseExpression n st1
      match expr with
      | none => do
          let st3 ← liftSkip (skipStatement n st2)
          .ok (zeroPrint, st3)
      | some e => do
          let (_, st3) := eat .SEMI st2
          .ok (.printStmt (some e) pos, st3)

def parseAssertStatement (fuel : Nat) (st : PState) : Except String (Stmt × PState) :=
  match fuel with
  | 0 => .error fuelMsg
  | n + 1 => do
    let pos := st.currentPos
    let (ok, st1) := eat .ASSERT st
    if !ok then do
      let st2 ← liftSkip (skipStatement n st1)
      .ok (zeroAssert, st2)
    else do
      let (ok2, st2) := eat .LPAREN st1
      if !ok2 then do
        let st3 ← liftSkip (skipStatement n st2)
        .ok (zeroAssert, st3)
      else do
        let (expr, st3) ← parseExpression n st2
        match expr with
        | none => do
            let st4 ← liftSkip (skipStatement n st3)
            .ok (zeroAssert, st4)
        | some e => do
            let statement : Stmt := .assertStmt (some e) pos
            let (ok3, st4) := eat .RPAREN st3
            if !ok3 then do
              let st5 ← liftSkip (skipStatement n st4)
              .ok (zeroAssert, st5)
            else do
              let (_, st5) := eat .SEMI st4
              .ok (statement, st5)

def parseStatement (fuel : Nat) (st : PState) : Except String (Option Stmt × PState) :=
  match fuel with
  | 0 => .error fuelMsg
  | n + 1 =>
    match st.currentToken.tag with
    | .VAR => do
        let (s, st1) ← parseDeclaration n st
        .ok (some s, st1)
    | .IDENT => do
        let (s, st1) ← parseAssignment n st
        .ok (some s, st1)
    | .FOR => do
        let (s, st1) ← parseForStatement n st
        .ok (some s, st1)
    | .READ => do
        let (s, st1) ← parseReadStatement n st
        .ok (some s, st1)
    | .PRINT => do
        let (s, st1) ← parsePrintStatement n st
        .ok (some s, st1)
    | .ASSERT => do
        let (s, st1) ← parseAssertStatement n st
        .ok (some s, st1)
    | got =>
        -- the statement stays the nil interface and the token is not consumed
        .ok (none, { st with errors := st.errors ++ [msgUnexpected st.currentPos got] })

def parseStatementsLoop (fuel : Nat) (st : PState) (acc : List (Option Stmt)) :
    Except String (List (Option Stmt) × PState) :=
  match fuel with
  | 0 => .error fuelMsg
  | n + 1 =>
    if st.currentToken.isStatement then do
      let (s, st1) ← parseStatement n st
      parseStatementsLoop n st1 (acc ++ [s])
    else
      .ok (acc, st)

def parseStatements (fuel : Nat) (st : PState) :
    Except String (List (Option Stmt) × PState) :=
  match fuel with
  | 0 => .error fuelMsg
  | n + 1 => do
    let (s, st1) ← parseStatement n st
    parseStatementsLoop n st1 [s]

end

/-- Parser.Parse: the statement list, then EOF. -/
def parse (fuel : Nat) (tokens : List (Token × Position)) (eofPos : Position) :
    Except String (Prog × List String) := do
  let st := parserNew tokens eofPos
  let (stmts, st1) ← parseStatements fuel st
  let (_, st2) := eat .EOF st1
  .ok (⟨stmts⟩, st2.errors)
/-! ## Concrete programs used by the verification -/

def factSrc : String :=
  "var n : int;\nread n;\nvar v : int := 1;\nvar i : int;\nfor i in 1..n do\n v := v * i;\nend for;\nprint v;\n"

def factBody : List (Option Stmt) :=
  [some (.assignStmt ⟨⟨.IDENT, "v"⟩, ⟨6, 2⟩⟩
    (some (.binary (.identExpr ⟨.IDENT, "v"⟩ ⟨6, 7⟩) ⟨.MULTIPLY, ""⟩
      (.identExpr ⟨.IDENT, "i"⟩ ⟨6, 11⟩))) ⟨6, 2⟩)]

/-- The AST the parser produces for the factorial source. -/
def factAst : Prog := ⟨[
  some (.declStmt ⟨.IDENT, "n"⟩ ⟨.INTEGER, ""⟩ none ⟨1, 1⟩),
  some (.readStmt ⟨⟨.IDENT, "n"⟩, ⟨2, 6⟩⟩ ⟨2, 1⟩),
  some (.declStmt ⟨.IDENT, "v"⟩ ⟨.INTEGER, ""⟩
    (some (.nullary (.numberOpnd 1 ⟨3, 16⟩))) ⟨3, 1⟩),
  some (.declStmt ⟨.IDENT, "i"⟩ ⟨.INTEGER, ""⟩ none ⟨4, 1⟩),
  some (.forStmt ⟨⟨.IDENT, "i"⟩, ⟨5, 5⟩⟩
    (some (.nullary (.numberOpnd 1 ⟨5, 10⟩)))
    (some (.nullary (.identExpr ⟨.IDENT, "n"⟩ ⟨5, 13⟩)))
    factBody ⟨5, 1⟩),
  some (.printStmt (some (.nullary (.identExpr ⟨.IDENT, "v"⟩ ⟨8, 7⟩))) ⟨8, 1⟩)]⟩

def recSrc : String :=
  "for i in 1..3 do\nprint ;\nprint ;\nprint ;\nend for;\n"

/-- Nested for loops over distinct index names; the inner body assigns to the
    outer index. -/
def nestedDistinctProg : Prog := ⟨[
  some (.declStmt ⟨.IDENT, "i"⟩ ⟨.INTEGER, ""⟩ none ⟨1, 1⟩),
  some (.declStmt ⟨.IDENT, "j"⟩ ⟨.INTEGER, ""⟩ none ⟨2, 1⟩),
  some (.forStmt ⟨⟨.IDENT, "i"⟩, ⟨3, 5⟩⟩
    (some (.nullary (.numberOpnd 0 ⟨3, 10⟩))) (some (.nullary (.numberOpnd 1 ⟨3, 13⟩)))
    [some (.forStmt ⟨⟨.IDENT, "j"⟩, ⟨4, 5⟩⟩
      (some (.nullary (.numberOpnd 0 ⟨4, 10⟩))) (some (.nullary (.numberOpnd 1 ⟨4, 13⟩)))
      [some (.assignStmt ⟨⟨.IDENT, "i"⟩, ⟨5, 3⟩⟩
        (some (.nullary (.numberOpnd 5 ⟨5, 8⟩))) ⟨5, 3⟩)]
      ⟨4, 1⟩)]
    ⟨3, 1⟩)]⟩

/-- Nested for loops reusing the same index name; after the inner loop the
    outer body assigns to the shared index. -/
def nestedSameProg : Prog := ⟨[
  some (.declStmt ⟨.IDENT, "i"⟩ ⟨.INTEGER, ""⟩ none ⟨1, 1⟩),
  some (.forStmt ⟨⟨.IDENT, "i"⟩, ⟨2, 5⟩⟩
    (some (.nullary (.numberOpnd 0 ⟨2, 10⟩))) (some (.nullary (.numberOpnd 1 ⟨2, 13⟩)))
    [some (.forStmt ⟨⟨.IDENT, "i"⟩, ⟨3, 5⟩⟩
      (some (.nullary (.numberOpnd 0 ⟨3, 10⟩))) (some (.nullary (.numberOpnd 1 ⟨3, 13⟩)))
      [] ⟨3, 1⟩),
     some (.assignStmt ⟨⟨.IDENT, "i"⟩, ⟨4, 3⟩⟩
      (some (.nullary (.numberOpnd 5 ⟨4, 8⟩))) ⟨4, 3⟩)]
    ⟨2, 1⟩)]⟩

/-! ## General lemmas about the embedded pipeline -/

theorem execStmts_nil (st : InterpState) : execStmts [] st = .ok st := by
  simp [execStmts]

/-- A statement that completes hands its state to the rest of the list. -/
theorem execStmts_cons_ok {o : Option Stmt} {rest : List (Option Stmt)}
    {st st1 : InterpState} (h : execOptStmt o st = .ok st1) :
    execStmts (o :: rest) st = execStmts rest st1 := by
  simp only [execStmts]
  rw [h]
  rfl

/-- A statement that halts (terminate or panic) halts the whole list: the
    statements after it never execute. -/
theorem execStmts_cons_error {o : Option Stmt} {rest : List (Option Stmt)}
    {st : InterpState} {h : Halt} (he : execOptStmt o st = .error h) :
    execStmts (o :: rest) st = .error h := by
  simp only [execStmts]
  rw [he]
  rfl

theorem getAssoc_setAssoc_self {α : Type} (l : List (String × α)) (k : String) (v : α) :
    getAssoc (setAssoc l k v) k = some v := by
  induction l with
  | nil => simp [setAssoc, getAssoc]
  | cons hd tl ih =>
      by_cases hk : hd.1 = k
      · simp [setAssoc, hk, getAssoc]
      · simp [setAssoc, hk, getAssoc, ih]

theorem getAssoc_setAssoc_ne {α : Type} (l : List (String × α)) (k k2 : String)
    (v : α) (hne : k ≠ k2) : getAssoc (setAssoc l k v) k2 = getAssoc l k2 := by
  induction l with
  | nil => simp [setAssoc, getAssoc, hne]
  | cons hd tl ih =>
      by_cases hk : hd.1 = k
      · simp [setAssoc, hk, getAssoc, hne]
      · simp only [setAssoc, hk, if_false, getAssoc]
        by_cases h2 : hd.1 = k2 <;> simp [h2, ih]

theorem lockDelete_not_mem (l : List String) (name : String) :
    ¬ (lockDelete l name).contains name := by
  simp [lockDelete, List.contains]

theorem pAdvance_errors (st : PState) : (pAdvance st).errors = st.errors := by
  cases h : st.tokens <;> simp [pAdvance, h]

/-- VisitIdent only ever appends an error. -/
theorem stcVisitIdentAt_shape (id : Token) (pos : Position) (st st' : CreatorState)
    (h : stcVisitIdentAt id pos st = .ok st') :
    st'.symbols = st.symbols ∧ st'.lockedSymbols = st.lockedSymbols ∧
    ∃ tail, st'.errors = st.errors ++ tail := by
  unfold stcVisitIdentAt tokenValueE at h
  cases hv : id.value with
  | none => rw [hv] at h; simp [bind, Except.bind] at h
  | some name =>
      rw [hv] at h
      simp only [bind, Except.bind] at h
      cases hg : st.symbols.get name with
      | some t =>
          rw [hg] at h
          simp [bind, Except.bind] at h
          subst h
          exact ⟨rfl, rfl, [], by simp⟩
      | none =>
          rw [hg] at h
          simp [bind, Except.bind] at h
          subst h
          exact ⟨rfl, rfl, [msgUndeclared pos name], rfl⟩

theorem stcVisitIdent_shape (n : IdentNode) (st st' : CreatorState)
    (h : stcVisitIdent n st = .ok st') :
    st'.symbols = st.symbols ∧ st'.lockedSymbols = st.lockedSymbols ∧
    ∃ tail, st'.errors = st.errors ++ tail :=
  stcVisitIdentAt_shape n.id n.pos st st' h

/-- The expression traversal of the creator only ever appends errors. -/
theorem stcVisitExpr_shape (e : Expr) : ∀ (st st' : CreatorState),
    stcVisitExpr e st = .ok st' →
    st'.symbols = st.symbols ∧ st'.lockedSymbols = st.lockedSymbols ∧
    ∃ tail, st'.errors = st.errors ++ tail := by
  induction e with
  | binary l op r ihl ihr =>
      intro st st' h
      simp only [stcVisitExpr, bind, Except.bind] at h
      cases hl : stcVisitExpr l st with
      | error e => rw [hl] at h; simp at h
      | ok st1 =>
          rw [hl] at h
          obtain ⟨s1, k1, t1, ht1⟩ := ihl st st1 hl
          obtain ⟨s2, k2, t2, ht2⟩ := ihr st1 st' h
          exact ⟨s2.trans s1, k2.trans k1, t1 ++ t2, by simp [ht2, ht1]⟩
  | unary u o p ih => intro st st' h; exact ih st st' h
  | nullary o ih => intro st st' h; exact ih st st' h
  | numberOpnd v p =>
      intro st st' h
      simp only [stcVisitExpr] at h
      cases h
      exact ⟨rfl, rfl, [], by simp⟩
  | stringOpnd v p =>
      intro st st' h
      simp only [stcVisitExpr] at h
      cases h
      exact ⟨rfl, rfl, [], by simp⟩
  | identExpr id p =>
      intro st st' h
      exact stcVisitIdentAt_shape id p st st' h

theorem stcVisitOptExpr_shape (o : Option Expr) (st st' : CreatorState)
    (h : stcVisitOptExpr o st = .ok st') :
    st'.symbols = st.symbols ∧ st'.lockedSymbols = st.lockedSymbols ∧
    ∃ tail, st'.errors = st.errors ++ tail := by
  cases o with
  | none => simp [stcVisitOptExpr] at h
  | some e => exact stcVisitExpr_shape e st st' h

theorem stcVisitStmts_preserves_symbols :
    ∀ (l : List (Option Stmt)) (st : CreatorState),
      ∀ st2, stcVisitStmts l st = .ok st2 →
        ∀ name τ, st.symbols.get name = some τ → st2.symbols.get name = some τ := by
  refine stcVisitStmts.induct
    (fun s st => ∀ st2, stcVisitStmt s st = .ok st2 →
      ∀ name τ, st.symbols.get name = some τ → st2.symbols.get name = some τ)
    (fun l st => ∀ st2, stcVisitStmts l st = .ok st2 →
      ∀ name τ, st.symbols.get name = some τ → st2.symbols.get name = some τ)
    (fun o st => ∀ st2, stcVisitOptStmt o st = .ok st2 →
      ∀ name τ, st.symbols.get name = some τ → st2.symbols.get name = some τ)
    ?_ ?_ ?_ ?_ ?_ ?_ ?_ ?_ ?_ ?_
  · -- declStmt
    intro st id vt oe p st2 h name τ hget
    simp only [stcVisitStmt, bind, Except.bind] at h
    split at h
    · simp at h
    · rename_i name0 hv
      split at h
      · cases h; simpa using hget
      · rename_i hg
        have hne : name0 ≠ name := by
          intro hEq
          rw [hEq, hget] at hg
          cases hg
        split at h <;> cases h <;>
          simpa [SymbolTable.get, SymbolTable.insert,
            getAssoc_setAssoc_ne _ _ _ _ hne] using hget
  · -- assignStmt
    intro st ident oe p st2 h name τ hget
    simp only [stcVisitStmt, bind, Except.bind] at h
    split at h
    · simp at h
    · rename_i st1 hid
      obtain ⟨hs1, _, _⟩ := stcVisitIdent_shape ident st st1 hid
      split at h
      · simp at h
      · rename_i nm hv
        split at h <;> cases h <;> simpa [SymbolTable.get, hs1] using hget
  · -- forStmt
    intro st index low high body p ih st2 h name τ hget
    simp only [stcVisitStmt, bind, Except.bind] at h
    split at h
    · simp at h
    · rename_i st1 hid
      obtain ⟨hs1, _, _⟩ := stcVisitIdent_shape index st st1 hid
      split at h
      · simp at h
      · rename_i idxName hv
        split at h
        · simp at h
        · rename_i st3 hlo
          obtain ⟨hs3, _, _⟩ := stcVisitOptExpr_shape _ _ _ hlo
          split at h
          · simp at h
          · rename_i st4 hhi
            obtain ⟨hs4, _, _⟩ := stcVisitOptExpr_shape _ _ _ hhi
            split at h
            · simp at h
            · rename_i st5 hb
              cases h
              have hget4 : st4.symbols.get name = some τ := by
                rw [hs4, hs3]
                simpa [SymbolTable.get, hs1] using hget
              have := ih _ st5 hb name τ hget4
              simpa [SymbolTable.get] using this
  · -- readStmt
    intro st target p st2 h name τ hget
    simp only [stcVisitStmt] at h
    obtain ⟨hs, _, _⟩ := stcVisitIdent_shape target st st2 h
    simpa [SymbolTable.get, hs] using hget
  · -- printStmt
    intro st oe p st2 h name τ hget
    simp only [stcVisitStmt] at h
    obtain ⟨hs, _, _⟩ := stcVisitOptExpr_shape oe st st2 h
    simpa [SymbolTable.get, hs] using hget
  · -- assertStmt
    intro st oe p st2 h name τ hget
    simp only [stcVisitStmt] at h
    obtain ⟨hs, _, _⟩ := stcVisitOptExpr_shape oe st st2 h
    simpa [SymbolTable.get, hs] using hget
  · -- nil
    intro st st2 h name τ hget
    simp only [stcVisitStmts] at h
    cases h
    exact hget
  · -- cons
    intro st o rest iho ihrest st2 h name τ hget
    simp only [stcVisitStmts, bind, Except.bind] at h
    split at h
    · simp at h
    · rename_i st1 ho
      exact ihrest st1 st2 h name τ (iho st1 ho name τ hget)
  · -- opt none
    intro st st2 h
    simp [stcVisitOptStmt] at h
  · -- opt some
    intro st s ih st2 h name τ hget
    simp only [stcVisitOptStmt] at h
    exact ih st2 h name τ hget

/-! ## The factorial program of spec section 8 -/

set_option maxHeartbeats 2000000 in
theorem factParseLex : (match runLexer 1000 (lexNew factSrc) with
    | some (toks, epos) => parse 60 toks epos
    | none => .error "lex failed") = .ok (factAst, []) := rfl

theorem factCreate : stcCreate factAst =
    .ok (⟨[("n", .INTEGER), ("v", .INTEGER), ("i", .INTEGER)]⟩, []) := by
  simp [stcCreate, factAst, factBody, stcVisitStmts, stcVisitOptStmt, stcVisitStmt,
    stcVisitIdent, stcVisitIdentAt, stcVisitOptExpr, stcVisitExpr, tokenValueE,
    Token.value, SymbolTable.get, SymbolTable.insert, getAssoc, setAssoc,
    lockInsert, lockDelete, List.contains, List.filter, bind, Except.bind]

theorem factTypes : tcCheckTypes ⟨[("n", .INTEGER), ("v", .INTEGER), ("i", .INTEGER)]⟩
    factAst = .ok [] := by decide

theorem factIterStep (a j : Int) :
    execStmts factBody
      ⟨[("n", some (.int 5)), ("v", some (.int a)), ("i", some (.int j))], [], ""⟩ =
    .ok ⟨[("n", some (.int 5)), ("v", some (.int (a * j))), ("i", some (.int j))], [], ""⟩ := by
  simp [factBody, execStmts, execOptStmt, execStmt, evalOptExpr, evalExpr, Token.value,
    setAssoc, getAssoc, bind, Except.bind]

theorem factForRun :
    execOptStmt (some (.forStmt ⟨⟨.IDENT, "i"⟩, ⟨5, 5⟩⟩
      (some (.nullary (.numberOpnd 1 ⟨5, 10⟩)))
      (some (.nullary (.identExpr ⟨.IDENT, "n"⟩ ⟨5, 13⟩)))
      factBody ⟨5, 1⟩))
    ⟨[("n", some (.int 5)), ("v", some (.int 1)), ("i", some (.int 0))], [], ""⟩ =
    .ok ⟨[("n", some (.int 5)), ("v", some (.int 24)), ("i", some (.int 4))], [], ""⟩ := by
  simp [execOptStmt, execStmt, evalOptExpr, evalExpr, Token.value, getAssoc,
    goAssertInt, bind, Except.bind, rangeInts, List.range, List.range.loop,
    execForIter, factIterStep, setAssoc]

theorem factStep1 : execOptStmt (some (.declStmt ⟨.IDENT, "n"⟩ ⟨.INTEGER, ""⟩ none ⟨1, 1⟩))
    ⟨[], [⟨"5", true⟩], ""⟩ = .ok ⟨[("n", some (.int 0))], [⟨"5", true⟩], ""⟩ := by
  simp [execOptStmt, execStmt, Token.value, setAssoc]

theorem factStep2 : execOptStmt (some (.readStmt ⟨⟨.IDENT, "n"⟩, ⟨2, 6⟩⟩ ⟨2, 1⟩))
    ⟨[("n", some (.int 0))], [⟨"5", true⟩], ""⟩ =
    .ok ⟨[("n", some (.int 5))], [], ""⟩ := by
  simp [execOptStmt, execStmt, Token.value, setAssoc, getAssoc, readLineGo,
    trimNewlines, goAtoi, digitsToNat, List.dropWhile]

theorem factStep3 : execOptStmt (some (.declStmt ⟨.IDENT, "v"⟩ ⟨.INTEGER, ""⟩
    (some (.nullary (.numberOpnd 1 ⟨3, 16⟩))) ⟨3, 1⟩))
    ⟨[("n", some (.int 5))], [], ""⟩ =
    .ok ⟨[("n", some (.int 5)), ("v", some (.int 1))], [], ""⟩ := by
  simp [execOptStmt, execStmt, evalExpr, Token.value, setAssoc, bind, Except.bind]

theorem factStep4 : execOptStmt (some (.declStmt ⟨.IDENT, "i"⟩ ⟨.INTEGER, ""⟩ none ⟨4, 1⟩))
    ⟨[("n", some (.int 5)), ("v", some (.int 1))], [], ""⟩ =
    .ok ⟨[("n", some (.int 5)), ("v", some (.int 1)), ("i", some (.int 0))], [], ""⟩ := by
  simp [execOptStmt, execStmt, Token.value, setAssoc]

theorem factStep6 : execOptStmt
    (some (.printStmt (some (.nullary (.identExpr ⟨.IDENT, "v"⟩ ⟨8, 7⟩))) ⟨8, 1⟩))
    ⟨[("n", some (.int 5)), ("v", some (.int 24)), ("i", some (.int 4))], [], ""⟩ =
    .ok ⟨[("n", some (.int 5)), ("v", some (.int 24)), ("i", some (.int 4))], [], "24"⟩ := by
  simp [execOptStmt, execStmt, evalOptExpr, evalExpr, Token.value, getAssoc, goFmtValue,
    bind, Except.bind]
  rfl

/-- Running the factorial AST with input line "5" prints exactly "24". -/
theorem factRun : interpRun factAst ⟨[], [⟨"5", true⟩], ""⟩ =
    .ok ⟨[("n", some (.int 5)), ("v", some (.int 24)), ("i", some (.int 4))], [], "24"⟩ := by
  unfold interpRun factAst
  rw [execStmts_cons_ok factStep1, execStmts_cons_ok factStep2,
    execStmts_cons_ok factStep3, execStmts_cons_ok factStep4,
    execStmts_cons_ok factForRun, execStmts_cons_ok factStep6, execStmts_nil]

/-! ## The claims -/

/-- C1: the interpreter evaluates a for statement's low and high bounds once,
    before the first iteration, and then runs the body over the half-open
    range: execution of a for statement whose bounds evaluate to lo and hi is
    exactly execForIter over rangeInts lo hi; membership in rangeInts lo hi
    is lo ≤ j ∧ j < hi (low inclusive, high exclusive); each iteration binds
    the index in the environment and runs the body statements in order; and
    the section-8 factorial program lexes and parses to factAst, which run
    with input line "5" prints exactly "24". -/
theorem claim_C1_for_loop :
    (∀ (index : IdentNode) (low high : Option Expr) (body : List (Option Stmt))
       (pos : Position) (st : InterpState) (idx : String) (lv hv : Option Value)
       (lo hi : Int),
      index.id.value = some idx →
      evalOptExpr st low = .ok lv →
      goAssertInt lv st = .ok lo →
      evalOptExpr st high = .ok hv →
      goAssertInt hv st = .ok hi →
      execStmt (.forStmt index low high body pos) st =
        execForIter body idx (rangeInts lo hi) st) ∧
    (∀ (lo hi j : Int), j ∈ rangeInts lo hi ↔ lo ≤ j ∧ j < hi) ∧
    (∀ (body : List (Option Stmt)) (idx : String) (st : InterpState),
      execForIter body idx [] st = .ok st) ∧
    (∀ (body : List (Option Stmt)) (idx : String) (j : Int) (rest : List Int)
       (st : InterpState),
      execForIter body idx (j :: rest) st = do
        let st1 ← execStmts body { st with vars := setAssoc st.vars idx (some (.int j)) }
        execForIter body idx rest st1) ∧
    (match runLexer 1000 (lexNew factSrc) with
      | some (toks, epos) => parse 60 toks epos
      | none => .error "lex failed") = .ok (factAst, []) ∧
    interpRun factAst ⟨[], [⟨"5", true⟩], ""⟩ =
      .ok ⟨[("n", some (.int 5)), ("v", some (.int 24)), ("i", some (.int 4))], [], "24"⟩ := by
  refine ⟨?_, ?_, ?_, ?_, factParseLex, factRun⟩
  · intro index low high body pos st idx lv hv lo hi hidx hlv hlo hhv hhi
    simp only [execStmt, hidx, hlv, hlo, hhv, hhi, bind, Except.bind]
  · intro lo hi j
    constructor
    · intro hj
      rw [rangeInts] at hj
      obtain ⟨k, hk, hkj⟩ := List.mem_map.mp hj
      rw [List.mem_range] at hk
      rw [Int.ofNat_eq_coe] at hkj
      omega
    · intro h
      rw [rangeInts]
      refine List.mem_map.mpr ⟨(j - lo).toNat, List.mem_range.mpr (by omega), ?_⟩
      rw [Int.ofNat_eq_coe]
      omega
  · intro body idx st
    rw [execForIter]
  · intro body idx j rest st
    rw [execForIter]

theorem claim_C1_witness :
    execStmt (.forStmt ⟨⟨.IDENT, "i"⟩, ⟨5, 5⟩⟩
        (some (.nullary (.numberOpnd 1 ⟨5, 10⟩)))
        (some (.nullary (.identExpr ⟨.IDENT, "n"⟩ ⟨5, 13⟩)))
        factBody ⟨5, 1⟩)
      ⟨[("n", some (.int 5)), ("v", some (.int 1)), ("i", some (.int 0))], [], ""⟩ =
      execForIter factBody "i" (rangeInts 1 5)
        ⟨[("n", some (.int 5)), ("v", some (.int 1)), ("i", some (.int 0))], [], ""⟩ ∧
    ((3 : Int) ∈ rangeInts 1 5 ↔ 1 ≤ (3 : Int) ∧ (3 : Int) < 5) := by
  constructor
  · exact claim_C1_for_loop.1 ⟨⟨.IDENT, "i"⟩, ⟨5, 5⟩⟩
      (some (.nullary (.numberOpnd 1 ⟨5, 10⟩)))
      (some (.nullary (.identExpr ⟨.IDENT, "n"⟩ ⟨5, 13⟩)))
      factBody ⟨5, 1⟩
      ⟨[("n", some (.int 5)), ("v", some (.int 1)), ("i", some (.int 0))], [], ""⟩
      "i" (some (.int 1)) (some (.int 5)) 1 5 rfl rfl rfl rfl rfl
  · exact claim_C1_for_loop.2.1 1 5 3

/-- C2 (amended): assigning to a for-loop index while it is locked reports
    the cannot-modify error and while unlocked is an ordinary assignment; a
    for statement always leaves its own index unlocked when it finishes; and
    nested loops over distinct index names compose: in nestedDistinctProg the
    inner body's assignment to the outer index errors.  The spec's stronger
    clause — lock/unlock strictly scoped to the loop's subtree, so a name can
    never be assignable inside an enclosing loop's still-active body — fails:
    see claim_C2_counterexample. -/
theorem claim_C2_loop_index_locking :
    (∀ (ident : IdentNode) (oe : Option Expr) (pos : Position) (st : CreatorState)
       (name : String),
      ident.id.value = some name → (st.symbols.get name).isSome →
      stcVisitStmt (.assignStmt ident oe pos) st =
        .ok (if st.lockedSymbols.contains name then
          { st with errors := st.errors ++ [msgLocked pos name] } else st)) ∧
    (∀ (index : IdentNode) (low high : Option Expr) (body : List (Option Stmt))
       (pos : Position) (st stF : CreatorState) (idxName : String),
      index.id.value = some idxName →
      stcVisitStmt (.forStmt index low high body pos) st = .ok stF →
      stF.lockedSymbols.contains idxName = false) ∧
    stcCreate nestedDistinctProg =
      .ok (⟨[("i", .INTEGER), ("j", .INTEGER)]⟩, [msgLocked ⟨5, 3⟩ "i"]) := by
  refine ⟨?_, ?_, ?_⟩
  · intro ident oe pos st name hname hsome
    obtain ⟨t, hget⟩ := Option.isSome_iff_exists.mp hsome
    simp only [stcVisitStmt, stcVisitIdent, stcVisitIdentAt, tokenValueE, hname, hget,
      bind, Except.bind]
    split <;> rfl
  · intro index low high body pos st stF idxName hname h
    simp only [stcVisitStmt, stcVisitIdent, stcVisitIdentAt, tokenValueE, hname,
      bind, Except.bind] at h
    repeat' split at h
    any_goals exact Except.noConfusion h
    all_goals
      cases h
      simpa using lockDelete_not_mem _ idxName
  · simp [stcCreate, nestedDistinctProg, stcVisitStmts, stcVisitOptStmt, stcVisitStmt,
      stcVisitIdent, stcVisitIdentAt, stcVisitOptExpr, stcVisitExpr, tokenValueE,
      Token.value, SymbolTable.get, SymbolTable.insert, getAssoc, setAssoc,
      lockInsert, lockDelete, List.contains, List.filter, bind, Except.bind]

/-- C2 counterexample: in nestedSameProg an inner for loop reuses the outer
    loop's index name i; the deferred delete of VisitForStmt unlocks i when
    the inner loop finishes, so the later assignment to i inside the
    still-active outer body is accepted with no error at all. -/
theorem claim_C2_counterexample :
    stcCreate nestedSameProg = .ok (⟨[("i", .INTEGER)]⟩, []) := by
  simp [stcCreate, nestedSameProg, stcVisitStmts, stcVisitOptStmt, stcVisitStmt,
    stcVisitIdent, stcVisitIdentAt, stcVisitOptExpr, stcVisitExpr, tokenValueE,
    Token.value, SymbolTable.get, SymbolTable.insert, getAssoc, setAssoc,
    lockInsert, lockDelete, List.contains, List.filter, bind, Except.bind]

theorem claim_C2_witness :
    stcVisitStmt (.assignStmt ⟨⟨.IDENT, "i"⟩, ⟨7, 2⟩⟩
      (some (.nullary (.numberOpnd 15 ⟨7, 8⟩))) ⟨7, 2⟩)
      ⟨⟨[("i", .INTEGER)]⟩, ["i"], []⟩ =
    .ok ⟨⟨[("i", .INTEGER)]⟩, ["i"], [msgLocked ⟨7, 2⟩ "i"]⟩ := by
  have h := claim_C2_loop_index_locking.1 ⟨⟨.IDENT, "i"⟩, ⟨7, 2⟩⟩
    (some (.nullary (.numberOpnd 15 ⟨7, 8⟩))) ⟨7, 2⟩
    ⟨⟨[("i", .INTEGER)]⟩, ["i"], []⟩ "i" (by decide) (by decide)
  simpa using h

/-- C3 counterexample: running the single statement `print 1 / 0;` halts with
    the bare Go panic divideByZeroMsg and an unchanged (empty) output: no
    positioned message is emitted anywhere. -/
theorem claim_C3_counterexample :
    interpRun ⟨[some (.printStmt
        (some (.binary (.numberOpnd 1 ⟨1, 7⟩) ⟨.INTEGER_DIV, ""⟩ (.numberOpnd 0 ⟨1, 9⟩)))
        ⟨1, 1⟩)]⟩
      ⟨[], [], ""⟩ =
    .error (.goPanic divideByZeroMsg ⟨[], [], ""⟩) := by
  unfold interpRun
  refine execStmts_cons_error ?_
  simp [execOptStmt, execStmt, evalOptExpr, evalExpr, bind, Except.bind]

/-- C3 (amended): a binary / whose right operand evaluates to integer zero
    stops execution immediately — the division raises Go's native
    integer-divide-by-zero panic (VisitBinaryExpr has no zero check), which
    carries no source position and prints no message to the program's output,
    and a halting statement stops the rest of the statement list. -/
theorem claim_C3_division_by_zero :
    (∀ (st : InterpState) (l r : Expr) (op : Token) (a : Int),
      op.tag = .INTEGER_DIV →
      evalExpr st l = .ok (some (.int a)) →
      evalExpr st r = .ok (some (.int 0)) →
      evalExpr st (.binary l op r) = .error (.goPanic divideByZeroMsg st)) ∧
    (∀ (o : Option Stmt) (rest : List (Option Stmt)) (st : InterpState) (h : Halt),
      execOptStmt o st = .error h → execStmts (o :: rest) st = .error h) := by
  constructor
  · intro st l r op a htag hl hr
    simp [evalExpr, htag, hl, hr, bind, Except.bind]
  · intro o rest st h he
    exact execStmts_cons_error he

theorem claim_C3_witness :
    evalExpr ⟨[], [], ""⟩
      (.binary (.numberOpnd 7 ⟨1, 7⟩) ⟨.INTEGER_DIV, ""⟩ (.numberOpnd 0 ⟨1, 9⟩)) =
    .error (.goPanic divideByZeroMsg ⟨[], [], ""⟩) :=
  claim_C3_division_by_zero.1 ⟨[], [], ""⟩ (.numberOpnd 7 ⟨1, 7⟩) (.numberOpnd 0 ⟨1, 9⟩)
    ⟨.INTEGER_DIV, ""⟩ 7 rfl (by simp [evalExpr]) (by simp [evalExpr])

/-- C4 counterexample: the pkg lexer turns the input "0123" into the single
    token INTEGER_LITERAL "0123" at 1:1 instead of raising a lexical
    error. -/
theorem claim_C4_counterexample :
    (getNextToken 100 (lexNew "0123")).map (fun r => (r.1, r.2.1)) =
      some (⟨.INTEGER_LITERAL, "0123"⟩, ⟨1, 1⟩) := by decide

/-- C4 (amended): the pkg lexer's number() has no leading-zero check, so
    both "0123" and "0" lex to INTEGER_LITERAL tokens; only the legacy lexer
    in src/lexer errors with "Number beginning with 0" on "0123" while still
    accepting the bare "0". -/
theorem claim_C4_leading_zero :
    ((getNextToken 100 (lexNew "0123")).map (fun r => r.1) =
      some ⟨.INTEGER_LITERAL, "0123"⟩) ∧
    ((getNextToken 100 (lexNew "0")).map (fun r => r.1) =
      some ⟨.INTEGER_LITERAL, "0"⟩) ∧
    (legGetNextToken 100 (lexNew "0123") = .error "Number beginning with 0") ∧
    ((legGetNextToken 100 (lexNew "0")).map (fun r => r.1) =
      .ok ⟨.INTEGER_LITERAL, "0"⟩) := by
  refine ⟨by decide, by decide, by decide, by decide⟩

set_option maxHeartbeats 2000000 in
/-- C5: parser error recovery: skipTo — the resynchronisation that discards
    tokens up to a recovery tag such as the next `;` — never appends an
    error, so a failed construct contributes only the error raised before
    recovery; and a for-loop body of three consecutive bare `print ;`
    statements parses to exactly three "unexpected SEMI" syntax errors, one
    per malformed statement, with the enclosing `end for ;` still recognised:
    the for statement itself is produced with its three recovered body
    slots. -/
theorem claim_C5_parser_recovery :
    (∀ (fuel : Nat) (tags : List TokenTag) (st st' : PState),
      skipTo fuel tags st = some st' → st'.errors = st.errors) ∧
    (match runLexer 1000 (lexNew recSrc) with
      | some (toks, epos) => parse 60 toks epos
      | none => .error "lex failed") =
    .ok (⟨[some (.forStmt ⟨⟨.IDENT, "i"⟩, ⟨1, 5⟩⟩
        (some (.nullary (.numberOpnd 1 ⟨1, 10⟩)))
        (some (.nullary (.numberOpnd 3 ⟨1, 13⟩)))
        [some zeroPrint, some zeroPrint, some zeroPrint] ⟨1, 1⟩)]⟩,
      [msgUnexpected ⟨2, 7⟩ .SEMI, msgUnexpected ⟨3, 7⟩ .SEMI,
       msgUnexpected ⟨4, 7⟩ .SEMI]) := by
  refine ⟨?_, ?_⟩
  · intro fuel
    induction fuel with
    | zero => intro tags st st' h; exact Option.noConfusion h
    | succ n ih =>
        intro tags st st' h
        simp only [skipTo] at h
        split at h
        · cases h; rfl
        · split at h
          · cases h; exact pAdvance_errors st
          · exact (ih tags (pAdvance st) st' h).trans (pAdvance_errors st)
  · rfl

theorem claim_C5_witness :
    (PState.mk [] ⟨9, 9⟩ ⟨.EOF, ""⟩ ⟨9, 9⟩ ["e"]).errors =
      (PState.mk [(⟨.SEMI, ""⟩, ⟨1, 2⟩)] ⟨9, 9⟩ ⟨.PLUS, ""⟩ ⟨1, 1⟩ ["e"]).errors :=
  claim_C5_parser_recovery.1 3 [.SEMI]
    (PState.mk [(⟨.SEMI, ""⟩, ⟨1, 2⟩)] ⟨9, 9⟩ ⟨.PLUS, ""⟩ ⟨1, 1⟩ ["e"])
    (PState.mk [] ⟨9, 9⟩ ⟨.EOF, ""⟩ ⟨9, 9⟩ ["e"]) rfl

/-- C6: for a binary expression over operand types tl and tr, a mismatch
    always surfaces the unmatched-types error and the applicable
    operator-not-defined error is surfaced in addition (PLUS for an operand
    type that is neither INTEGER nor STRING; MINUS, MULTIPLY and INTEGER_DIV
    for a non-INTEGER; AND for a non-BOOLEAN); and the LT and EQ operators
    always give result type BOOLEAN, with exactly the operand errors plus
    the possible mismatch error. -/
theorem claim_C6_binary_type_errors :
    ∀ (symbols : SymbolTable) (l r : Expr) (op : Token) (tl tr : SymbolType)
      (el er errs : List String) (ty : SymbolType),
      tcVisitExpr symbols l = .ok (tl, el) →
      tcVisitExpr symbols r = .ok (tr, er) →
      op.isOperator = true →
      tcVisitExpr symbols (.binary l op r) = .ok (ty, errs) →
      (tl ≠ tr → msgUnmatched l.position tl tr op.tag ∈ errs) ∧
      (op.tag = .PLUS → tl ≠ .INTEGER → tl ≠ .STRING →
        msgOpNotDef l.position op.tag tl ∈ errs) ∧
      ((op.tag = .MINUS ∨ op.tag = .MULTIPLY ∨ op.tag = .INTEGER_DIV) → tl ≠ .INTEGER →
        msgOpNotDef l.position op.tag tl ∈ errs) ∧
      (op.tag = .AND → tl ≠ .BOOLEAN →
        msgOpNotDef l.position op.tag tl ∈ errs) ∧
      ((op.tag = .LT ∨ op.tag = .EQ) → ty = .BOOLEAN ∧
        errs = el ++ er ++ (if tl ≠ tr then [msgUnmatched l.position tl tr op.tag] else [])) := by
  intro symbols l r op tl tr el er errs ty hl hr hop hres
  simp only [tcVisitExpr, hl, hr, bind, Except.bind, Expr.position] at hres
  cases htag : op.tag <;> rw [htag] at hres <;>
    first
      | (simp [Token.isOperator, htag] at hop; done)
      | (simp only [Except.ok.injEq, Prod.mk.injEq] at hres
         obtain ⟨hty, herrs⟩ := hres
         subst hty
         subst herrs
         refine ⟨?_, ?_, ?_, ?_, ?_⟩ <;> intros <;> simp_all [htag])

theorem claim_C6_witness :
    msgUnmatched ⟨1, 1⟩ SymbolType.BOOLEAN SymbolType.INTEGER TokenTag.PLUS ∈
      ([msgUnmatched ⟨1, 1⟩ .BOOLEAN .INTEGER .PLUS,
        msgOpNotDef ⟨1, 1⟩ .PLUS .BOOLEAN] : List String) ∧
    msgOpNotDef ⟨1, 1⟩ TokenTag.PLUS SymbolType.BOOLEAN ∈
      ([msgUnmatched ⟨1, 1⟩ .BOOLEAN .INTEGER .PLUS,
        msgOpNotDef ⟨1, 1⟩ .PLUS .BOOLEAN] : List String) := by
  have h := claim_C6_binary_type_errors ⟨[("b", .BOOLEAN)]⟩
    (.identExpr ⟨.IDENT, "b"⟩ ⟨1, 1⟩) (.numberOpnd 1 ⟨1, 5⟩) ⟨.PLUS, ""⟩
    .BOOLEAN .INTEGER [] []
    [msgUnmatched ⟨1, 1⟩ .BOOLEAN .INTEGER .PLUS,
      msgOpNotDef ⟨1, 1⟩ .PLUS .BOOLEAN]
    .BOOLEAN rfl rfl rfl rfl
  exact ⟨h.1 (by decide), h.2.1 rfl (by decide) (by decide)⟩

/-- C7: an assert whose expression evaluates to false terminates the run:
    the whole statement list halts with exit-failure carrying the positioned
    "assert failed" message (written to the output), so no statement after
    the assert executes regardless of source order; an assert whose
    expression evaluates to true leaves the state unchanged and execution
    continues with the rest of the list. -/
theorem claim_C7_assert_semantics :
    (∀ (oe : Option Expr) (pos : Position) (st : InterpState) (rest : List (Option Stmt)),
      evalOptExpr st oe = .ok (some (.bool false)) →
      execStmts (some (.assertStmt oe pos) :: rest) st =
        .error (.exitFailure (msgAssertFailed pos)
          { st with output := st.output ++ msgAssertFailed pos ++ "\n" })) ∧
    (∀ (oe : Option Expr) (pos : Position) (st : InterpState) (rest : List (Option Stmt)),
      evalOptExpr st oe = .ok (some (.bool true)) →
      execStmts (some (.assertStmt oe pos) :: rest) st = execStmts rest st) := by
  constructor
  · intro oe pos st rest h
    refine execStmts_cons_error ?_
    simp [execOptStmt, execStmt, h, terminate, bind, Except.bind]
  · intro oe pos st rest h
    refine execStmts_cons_ok ?_
    simp [execOptStmt, execStmt, h, bind, Except.bind]

theorem claim_C7_witness :
    execStmts
      [some (.assertStmt (some (.binary (.numberOpnd 1 ⟨1, 8⟩) ⟨.EQ, ""⟩ (.numberOpnd 2 ⟨1, 10⟩))) ⟨1, 1⟩),
       some (.printStmt (some (.nullary (.stringOpnd "after" ⟨2, 7⟩))) ⟨2, 1⟩)]
      ⟨[], [], ""⟩ =
    .error (.exitFailure (msgAssertFailed ⟨1, 1⟩) ⟨[], [], msgAssertFailed ⟨1, 1⟩ ++ "\n"⟩) := by
  have h := claim_C7_assert_semantics.1
    (some (.binary (.numberOpnd 1 ⟨1, 8⟩) ⟨.EQ, ""⟩ (.numberOpnd 2 ⟨1, 10⟩))) ⟨1, 1⟩
    ⟨[], [], ""⟩
    [some (.printStmt (some (.nullary (.stringOpnd "after" ⟨2, 7⟩))) ⟨2, 1⟩)]
    (by simp [evalOptExpr, evalExpr, goEq, bind, Except.bind])
  simpa using h

/-- C8: VisitReadStmt dispatches on the current runtime value of the target
    variable, not its declared type: an int value parses the read line with
    Atoi and a parse failure terminates with the positioned parse-int
    message; a string value takes the line and a stream failure terminates
    with the positioned parse-string message; any other current value
    terminates with the positioned could-not-read message; and a halting
    statement stops the rest of the statement list — no recovery. -/
theorem claim_C8_read_semantics :
    (∀ (target : IdentNode) (pos : Position) (st st1 : InterpState)
       (name data : String) (e : Bool) (k : Int),
      target.id.value = some name →
      getAssoc st.vars name = some (some (.int k)) →
      readLineGo st = (data, e, st1) →
      execStmt (.readStmt target pos) st =
        match goAtoi (trimNewlines data) with
        | none => .error (.exitFailure (msgParseIntFail pos)
            { st1 with output := st1.output ++ msgParseIntFail pos ++ "\n" })
        | some v => .ok { st1 with vars := setAssoc st1.vars name (some (.int v)) }) ∧
    (∀ (target : IdentNode) (pos : Position) (st st1 : InterpState)
       (name data s : String) (e : Bool),
      target.id.value = some name →
      getAssoc st.vars name = some (some (.str s)) →
      readLineGo st = (data, e, st1) →
      execStmt (.readStmt target pos) st =
        if e then .error (.exitFailure (msgParseStringFail pos)
            { st1 with output := st1.output ++ msgParseStringFail pos ++ "\n" })
        else .ok { st1 with vars := setAssoc st1.vars name (some (.str data)) }) ∧
    (∀ (target : IdentNode) (pos : Position) (st : InterpState) (name : String),
      target.id.value = some name →
      (getAssoc st.vars name = none ∨ getAssoc st.vars name = some none ∨
        (∃ b : Bool, getAssoc st.vars name = some (some (.bool b)))) →
      execStmt (.readStmt target pos) st =
        .error (.exitFailure (msgCouldNotRead pos)
          { st with output := st.output ++ msgCouldNotRead pos ++ "\n" })) ∧
    (∀ (o : Option Stmt) (rest : List (Option Stmt)) (st : InterpState) (h : Halt),
      execOptStmt o st = .error h → execStmts (o :: rest) st = .error h) := by
  refine ⟨?_, ?_, ?_, ?_⟩
  · intro target pos st st1 name data e k hname hval hread
    simp only [execStmt, hname, hval, hread, terminate]
  · intro target pos st st1 name data s e hname hval hread
    simp only [execStmt, hname, hval, hread, terminate]
  · intro target pos st name hname hval
    rcases hval with h | h | ⟨b, h⟩ <;>
      simp [execStmt, hname, h, terminate]
  · intro o rest st h he
    exact execStmts_cons_error he

theorem claim_C8_witness :
    execStmt (.readStmt ⟨⟨.IDENT, "n"⟩, ⟨1, 6⟩⟩ ⟨1, 1⟩)
      ⟨[("n", some (.int 0))], [⟨"abc", true⟩], ""⟩ =
    .error (.exitFailure (msgParseIntFail ⟨1, 1⟩)
      ⟨[("n", some (.int 0))], [], msgParseIntFail ⟨1, 1⟩ ++ "\n"⟩) := by
  have h := claim_C8_read_semantics.1 ⟨⟨.IDENT, "n"⟩, ⟨1, 6⟩⟩ ⟨1, 1⟩
    ⟨[("n", some (.int 0))], [⟨"abc", true⟩], ""⟩
    ⟨[("n", some (.int 0))], [], ""⟩ "n" ("abc" ++ "\n") false 0
    (by decide) (by decide) (by simp [readLineGo])
  rw [h]
  simp [goAtoi, trimNewlines, digitsToNat, List.dropWhile]

/-- C9: evaluating a `=` binary expression never reaches the
    unsupported-operands fatal branch: for any two successfully evaluated
    operands the result is the boolean goEq of the two values, and Go
    interface equality on runtime values of different dynamic types is
    false rather than an error. -/
theorem claim_C9_eq_never_panics :
    (∀ (st : InterpState) (l r : Expr) (op : Token) (lv rv : Option Value),
      evalExpr st l = .ok lv → evalExpr st r = .ok rv → op.tag = .EQ →
      evalExpr st (.binary l op r) = .ok (some (.bool (goEq lv rv)))) ∧
    (∀ (a : Int) (s : String) (b : Bool),
      goEq (some (.int a)) (some (.str s)) = false ∧
      goEq (some (.int a)) (some (.bool b)) = false ∧
      goEq (some (.str s)) (some (.bool b)) = false ∧
      goEq (some (.int a)) none = false ∧
      goEq (some (.str s)) none = false ∧
      goEq (some (.bool b)) none = false) := by
  constructor
  · intro st l r op lv rv hl hr htag
    simp [evalExpr, hl, hr, htag, bind, Except.bind]
  · intro a s b
    simp [goEq]

theorem claim_C9_witness :
    evalExpr ⟨[], [], ""⟩ (.binary (.numberOpnd 1 ⟨1, 7⟩) ⟨.EQ, ""⟩ (.stringOpnd "x" ⟨1, 11⟩)) =
      .ok (some (.bool false)) := by
  have h := claim_C9_eq_never_panics.1 ⟨[], [], ""⟩ (.numberOpnd 1 ⟨1, 7⟩)
    (.stringOpnd "x" ⟨1, 11⟩) ⟨.EQ, ""⟩ (some (.int 1)) (some (.str "x"))
    (by simp [evalExpr]) (by simp [evalExpr]) rfl
  rw [h]
  decide

/-- C10: a Declare for a name already present in the symbol table appends
    the redeclaration error and returns the state with the table unchanged,
    so the name keeps the type of its first declaration; and the whole
    statement traversal preserves existing symbol-table entries, so after
    analysis every declared name still maps to its first declared type. -/
theorem claim_C10_redeclaration_keeps_first :
    (∀ (id vt : Token) (oe : Option Expr) (pos : Position) (st : CreatorState)
       (name : String) (τ : SymbolType),
      id.value = some name → st.symbols.get name = some τ →
      stcVisitStmt (.declStmt id vt oe pos) st =
        .ok { st with errors := st.errors ++ [msgRedecl pos name] }) ∧
    (∀ (l : List (Option Stmt)) (st st2 : CreatorState),
      stcVisitStmts l st = .ok st2 →
      ∀ (name : String) (τ : SymbolType),
        st.symbols.get name = some τ → st2.symbols.get name = some τ) := by
  constructor
  · intro id vt oe pos st name τ hname hget
    simp [stcVisitStmt, tokenValueE, hname, hget, bind, Except.bind]
  · exact fun l st st2 h => stcVisitStmts_preserves_symbols l st st2 h

theorem claim_C10_witness :
    stcVisitStmt (.declStmt ⟨.IDENT, "foo"⟩ ⟨.INTEGER, ""⟩ none ⟨13, 37⟩)
      ⟨⟨[("foo", .INTEGER)]⟩, [], []⟩ =
    .ok ⟨⟨[("foo", .INTEGER)]⟩, [], [msgRedecl ⟨13, 37⟩ "foo"]⟩ := by
  have h := claim_C10_redeclaration_keeps_first.1 ⟨.IDENT, "foo"⟩ ⟨.INTEGER, ""⟩ none
    ⟨13, 37⟩ ⟨⟨[("foo", .INTEGER)]⟩, [], []⟩ "foo" .INTEGER (by decide) (by decide)
  simpa using h

end MiniPL
